import Mathlib

/-!
Verification development for the real-estate-search Tracking Engine.

Shallow embedding of the Python services in `src/api/app`:
* `app/core/database.py`   — SQLite wrapper; every `execute_insert` /
  `execute_update` opens its own connection and calls `conn.commit()`
  immediately, so each write statement commits on its own.  We model this
  with explicit state passing where a raised database error leaves all
  previously committed writes in the state.
* `app/services/listing_service.py` — building resolution, price ledger,
  listing upsert, status transitions.
* `app/services/historical_sale_service.py` — historical-sale creation and
  CSV import.
* `app/services/photo_service.py` — orphaned-artifact reconciliation.
* `app/api/v1/listings.py` — the `add_price` boundary operation.

Prices are modelled as exact rationals (`Rat`, the code uses `Decimal`),
dates and timestamps as natural numbers (ISO date strings compare
chronologically), rows as structures, and tables as insertion-ordered
lists.  `fetch_one` on a plain equality `WHERE` clause is `List.find?`
(first row in scan order); `ORDER BY recorded_date DESC LIMIT 1` is the
first row of maximal recorded date.  Python truthiness on optional
strings/decimals (`if name:`, `if price:`) is modelled by `strTruthy` /
`ratTruthy`: `None`, the empty string and the zero decimal are falsy.

Failure injection: the persistence layer may raise on any committing write
statement.  Every service function takes a `failAt : Option Nat` argument;
the database state carries a running write counter, and the write whose
counter equals `failAt` raises.  `failAt = none` is a run where the store
never fails.
-/

namespace RealEstate

/-- One row of the `building` table. -/
structure Building where
  id : Nat
  name : String
  address : String
  neighborhoodId : Option Nat
  city : String
deriving Repr, DecidableEq

/-- One row of the `neighborhood` table (lookup-only for the engine). -/
structure Neighborhood where
  id : Nat
  name : String
deriving Repr, DecidableEq

/-- One row of the `price_history` table. -/
structure PriceRow where
  id : Nat
  listingId : Nat
  price : Rat
  recordedDate : Nat
  eventType : String
deriving Repr, DecidableEq

/-- One row of the `tracking_event` table. -/
structure EventRow where
  id : Nat
  listingId : Nat
  eventType : String
  details : String
deriving Repr, DecidableEq

/-- One row of the `listing` table. -/
structure ListingRow where
  id : Nat
  mlsNumber : String
  buildingId : Option Nat
  unitNumber : Option String
  status : String
  bedrooms : Option Int
  bathrooms : Option Rat
  squareFeet : Option Int
  propertyType : Option String
  listingDate : Option Nat
  daysOnMarket : Option Int
  description : Option String
  listingAgent : Option String
  listingBrokerage : Option String
  sourceUrl : Option String
  sourcePlatform : String
  isActive : Bool
  firstSeenAt : Nat
  lastSeenAt : Nat
  createdAt : Nat
  updatedAt : Nat
deriving Repr, DecidableEq

/-- One row of the `historical_sale` table. -/
structure SaleRow where
  id : Nat
  buildingId : Nat
  unitNumber : Option String
  salePrice : Rat
  saleDate : String
  bedrooms : Option Int
  bathrooms : Option Rat
  squareFeet : Option Int
  propertyType : Option String
  daysOnMarket : Option Int
  notes : Option String
  dataSource : String
deriving Repr, DecidableEq

/-- The relational store, with per-table rowid dispensers and the running
write-statement counter used for failure injection. -/
structure Db where
  buildings : List Building
  neighborhoods : List Neighborhood
  listings : List ListingRow
  priceHistory : List PriceRow
  trackingEvents : List EventRow
  sales : List SaleRow
  nextBuildingId : Nat
  nextListingId : Nat
  nextPriceId : Nat
  nextEventId : Nat
  nextSaleId : Nat
  writeCount : Nat
deriving Repr, DecidableEq

/-- An empty store. -/
def emptyDb : Db :=
  { buildings := [], neighborhoods := [], listings := [], priceHistory := []
    trackingEvents := [], sales := [], nextBuildingId := 1, nextListingId := 1
    nextPriceId := 1, nextEventId := 1, nextSaleId := 1, writeCount := 0 }

/-- Result of a service call: the Python exception channel together with the
database state as committed so far (per-statement commits survive a raise). -/
abbrev DbRes (α : Type) : Type := Except String α × Db

/-- Sequencing of service steps: an earlier raise propagates, keeping the
state committed up to that point. -/
def bindRes {α β : Type} (r : DbRes α) (f : α → Db → DbRes β) : DbRes β :=
  match r with
  | (Except.error e, st) => (Except.error e, st)
  | (Except.ok a, st) => f a st

/-- Python truthiness of an optional string: `None` and `""` are falsy. -/
def strTruthy : Option String → Bool
  | none => false
  | some s => !(decide (s = ""))

/-- Python truthiness of an optional decimal: `None` and `0` are falsy. -/
def ratTruthy : Option Rat → Bool
  | none => false
  | some q => !(decide (q = 0))

/-- Python `a or b` on optional strings: `a` if truthy, else `b`. -/
def pyOrStr (a b : Option String) : Option String :=
  if strTruthy a then a else b

/-- One committing statement (`conn.execute` + `conn.commit()` on a fresh
connection): bumps the write counter and reports whether this statement
raises (it raises exactly when the counter hits `failAt`). -/
def dbTick (failAt : Option Nat) (st : Db) : Bool × Db :=
  (if failAt = some st.writeCount then false else true,
   { st with writeCount := st.writeCount + 1 })

/-- `INSERT INTO building ...` via `Database.execute_insert`: committed
immediately; returns `lastrowid`. -/
def insertBuilding (failAt : Option Nat) (st : Db) (name address : String)
    (neighborhoodId : Option Nat) (city : String) : DbRes Nat :=
  match dbTick failAt st with
  | (false, st) => (Except.error "database error", st)
  | (true, st) =>
    (Except.ok st.nextBuildingId,
     { st with
        buildings := st.buildings ++
          [{ id := st.nextBuildingId, name := name, address := address
             neighborhoodId := neighborhoodId, city := city }]
        nextBuildingId := st.nextBuildingId + 1 })

/-- `INSERT INTO price_history ...` via `Database.execute_insert`. -/
def insertPriceRow (failAt : Option Nat) (st : Db) (listingId : Nat)
    (price : Rat) (recordedDate : Nat) (eventType : String) : DbRes Nat :=
  match dbTick failAt st with
  | (false, st) => (Except.error "database error", st)
  | (true, st) =>
    (Except.ok st.nextPriceId,
     { st with
        priceHistory := st.priceHistory ++
          [{ id := st.nextPriceId, listingId := listingId, price := price
             recordedDate := recordedDate, eventType := eventType }]
        nextPriceId := st.nextPriceId + 1 })

/-- `INSERT INTO tracking_event ...` via `Database.execute_insert`. -/
def insertTrackingEvent (failAt : Option Nat) (st : Db) (listingId : Nat)
    (eventType details : String) : DbRes Nat :=
  match dbTick failAt st with
  | (false, st) => (Except.error "database error", st)
  | (true, st) =>
    (Except.ok st.nextEventId,
     { st with
        trackingEvents := st.trackingEvents ++
          [{ id := st.nextEventId, listingId := listingId
             eventType := eventType, details := details }]
        nextEventId := st.nextEventId + 1 })

/-- `SELECT id FROM building WHERE name = ?` with `fetch_one`. -/
def findBuildingByName (st : Db) (name : String) : Option Building :=
  st.buildings.find? (fun b => b.name == name)

/-- `SELECT id FROM building WHERE address = ?` with `fetch_one`. -/
def findBuildingByAddress (st : Db) (address : String) : Option Building :=
  st.buildings.find? (fun b => b.address == address)

/-- `SELECT id FROM neighborhood WHERE name = ?` with `fetch_one`. -/
def findNeighborhoodByName (st : Db) (name : String) : Option Neighborhood :=
  st.neighborhoods.find? (fun n => n.name == name)

/-- `SELECT ... FROM listing WHERE mls_number = ?` with `fetch_one`. -/
def findListingByMls (st : Db) (mls : String) : Option ListingRow :=
  st.listings.find? (fun l => l.mlsNumber == mls)

/-- Dedup probe of `ListingService._record_price`:
`SELECT id FROM price_history WHERE listing_id = ? AND recorded_date = ? AND price = ?`. -/
def findPriceRowByKey (st : Db) (listingId : Nat) (recordedDate : Nat)
    (price : Rat) : Option PriceRow :=
  st.priceHistory.find? (fun r =>
    decide (r.listingId = listingId ∧ r.recordedDate = recordedDate ∧ r.price = price))

/-- All `price_history` rows of one listing, in scan order. -/
def listingHistory (st : Db) (listingId : Nat) : List PriceRow :=
  st.priceHistory.filter (fun r => r.listingId == listingId)

/-- `ORDER BY recorded_date DESC LIMIT 1`: the first row (in scan order)
carrying the maximal recorded date. -/
def mostRecentEntry (rows : List PriceRow) : Option PriceRow :=
  rows.foldl
    (fun acc r =>
      match acc with
      | none => some r
      | some a => if a.recordedDate < r.recordedDate then some r else acc)
    none

/-- `SELECT price FROM price_history WHERE listing_id = ? ORDER BY
recorded_date DESC LIMIT 1` — the "current price" query. -/
def currentPriceQuery (st : Db) (listingId : Nat) : Option PriceRow :=
  mostRecentEntry (listingHistory st listingId)

namespace ListingService

/-- `ListingService._get_or_create_building`.  `neighborhood` is resolved by
exact lookup only (never auto-created); `building_address = address or name
or "Unknown"`, `building_name = name or building_address`. -/
def get_or_create_building (failAt : Option Nat) (st : Db)
    (name address neighborhood : Option String) : DbRes (Option Nat) :=
  if !strTruthy name && !strTruthy address then (Except.ok none, st)
  else
    match (if strTruthy name then findBuildingByName st (name.getD "") else none) with
    | some b => (Except.ok (some b.id), st)
    | none =>
      match (if strTruthy address then findBuildingByAddress st (address.getD "") else none) with
      | some b => (Except.ok (some b.id), st)
      | none =>
        let neighborhoodId :=
          if strTruthy neighborhood then
            (findNeighborhoodByName st (neighborhood.getD "")).map (fun n => n.id)
          else none
        let buildingAddress := (pyOrStr address (pyOrStr name (some "Unknown"))).getD "Unknown"
        let buildingName := (pyOrStr name (some buildingAddress)).getD "Unknown"
        bindRes (insertBuilding failAt st buildingName buildingAddress neighborhoodId "Victoria")
          (fun bid st => (Except.ok (some bid), st))

/-- Event-kind resolution of `_record_price` (lines 94-108): only the
generic "Price Change" hint is reclassified, against the most recent prior
entry of the listing; any other hint ("Initial", "Sold", ...) is kept. -/
def classifyEventType (st : Db) (listingId : Nat) (price : Rat)
    (eventType : String) : String :=
  if eventType = "Price Change" then
    match currentPriceQuery st listingId with
    | some prev =>
      if price < prev.price then "Price Drop"
      else if prev.price < price then "Price Increase"
      else eventType
    | none => eventType
  else eventType

/-- `ListingService._record_price`.  `priceDate` defaults to `today`
(`date.today()`); an existing `(listingId, date, price)` row short-circuits
with its id; a generic "Price Change" hint is reclassified against the most
recent prior entry; then the row is inserted. -/
def record_price (failAt : Option Nat) (st : Db) (listingId : Nat) (price : Rat)
    (priceDate : Option Nat) (eventType : String) (today : Nat) : DbRes Nat :=
  let resolvedDate := priceDate.getD today
  match findPriceRowByKey st listingId resolvedDate price with
  | some existing => (Except.ok existing.id, st)
  | none =>
    insertPriceRow failAt st listingId price resolvedDate
      (classifyEventType st listingId price eventType)

end ListingService

/-- The dict argument of `ListingService.create_or_update_listing`
(`data.get(key)` yields `none` for an absent key). -/
structure ListingData where
  mls_number : Option String := none
  building_name : Option String := none
  address : Option String := none
  neighborhood : Option String := none
  unit_number : Option String := none
  status : Option String := none
  bedrooms : Option Int := none
  bathrooms : Option Rat := none
  square_feet : Option Int := none
  property_type : Option String := none
  listing_date : Option Nat := none
  days_on_market : Option Int := none
  description : Option String := none
  listing_agent : Option String := none
  listing_brokerage : Option String := none
  source_url : Option String := none
  source_platform : Option String := none
  price : Option Rat := none
deriving Repr, DecidableEq

/-- The result dict of `create_or_update_listing`. -/
structure UpsertResult where
  success : Bool
  listing_id : Nat
  mls_number : String
  is_new : Bool
  price_recorded : Bool
  message : String
deriving Repr, DecidableEq

/-- `INSERT INTO listing ...` of the create path (status defaults to
"Active", source platform to "Manual", `is_active = 1`, all four timestamps
set to `now`). -/
def insertListing (failAt : Option Nat) (st : Db) (mls : String)
    (buildingId : Option Nat) (data : ListingData) (now : Nat) : DbRes Nat :=
  match dbTick failAt st with
  | (false, st) => (Except.error "database error", st)
  | (true, st) =>
    (Except.ok st.nextListingId,
     { st with
        listings := st.listings ++
          [{ id := st.nextListingId
             mlsNumber := mls
             buildingId := buildingId
             unitNumber := data.unit_number
             status := data.status.getD "Active"
             bedrooms := data.bedrooms
             bathrooms := data.bathrooms
             squareFeet := data.square_feet
             propertyType := data.property_type
             listingDate := data.listing_date
             daysOnMarket := data.days_on_market
             description := data.description
             listingAgent := data.listing_agent
             listingBrokerage := data.listing_brokerage
             sourceUrl := data.source_url
             sourcePlatform := data.source_platform.getD "Manual"
             isActive := true
             firstSeenAt := now
             lastSeenAt := now
             createdAt := now
             updatedAt := now }]
        nextListingId := st.nextListingId + 1 })

/-- The field overwrite applied by the `UPDATE listing SET ...` statement of
the upsert's update path (identity, mls number, `first_seen_at` and
`created_at` are untouched; `is_active` is forced to 1). -/
def overwriteListingRow (l : ListingRow) (buildingId : Option Nat)
    (data : ListingData) (now : Nat) : ListingRow :=
  { l with
     buildingId := buildingId
     unitNumber := data.unit_number
     status := data.status.getD "Active"
     bedrooms := data.bedrooms
     bathrooms := data.bathrooms
     squareFeet := data.square_feet
     propertyType := data.property_type
     listingDate := data.listing_date
     daysOnMarket := data.days_on_market
     description := data.description
     listingAgent := data.listing_agent
     listingBrokerage := data.listing_brokerage
     sourceUrl := data.source_url
     sourcePlatform := data.source_platform.getD "Manual"
     isActive := true
     lastSeenAt := now
     updatedAt := now }

/-- `UPDATE listing SET ... WHERE id = ?` of the upsert's update path, via
`Database.execute_update` (committed immediately). -/
def updateListingFull (failAt : Option Nat) (st : Db) (listingId : Nat)
    (buildingId : Option Nat) (data : ListingData) (now : Nat) : DbRes Nat :=
  match dbTick failAt st with
  | (false, st) => (Except.error "database error", st)
  | (true, st) =>
    (Except.ok 1,
     { st with
        listings := st.listings.map (fun l =>
          if l.id = listingId then overwriteListingRow l buildingId data now else l) })

/-- `UPDATE listing SET status = ?, is_active = ?, last_seen_at = ?,
updated_at = ? WHERE id = ?` of `update_status`. -/
def updateListingStatus (failAt : Option Nat) (st : Db) (listingId : Nat)
    (status : String) (isActive : Bool) (now : Nat) : DbRes Nat :=
  match dbTick failAt st with
  | (false, st) => (Except.error "database error", st)
  | (true, st) =>
    (Except.ok 1,
     { st with
        listings := st.listings.map (fun l =>
          if l.id = listingId then
            { l with status := status, isActive := isActive
                     lastSeenAt := now, updatedAt := now }
          else l) })

namespace ListingService

/-- `ListingService.create_or_update_listing`.  `now` models
`datetime.now()`, `today` models `date.today()` (the default recorded date
inside `_record_price`). -/
def create_or_update_listing (failAt : Option Nat) (st : Db)
    (data : ListingData) (now today : Nat) : DbRes UpsertResult :=
  if !strTruthy data.mls_number then (Except.error "mls_number is required", st)
  else
    let mls := data.mls_number.getD ""
    let existing := findListingByMls st mls
    bindRes (get_or_create_building failAt st data.building_name data.address data.neighborhood)
      (fun buildingId st =>
        match existing with
        | some ex =>
          bindRes (updateListingFull failAt st ex.id buildingId data now)
            (fun _ st =>
              let priceStep : DbRes Bool :=
                if ratTruthy data.price then
                  let p := data.price.getD 0
                  match currentPriceQuery st ex.id with
                  | some cur =>
                    if cur.price = p then (Except.ok false, st)
                    else
                      bindRes (record_price failAt st ex.id p none "Price Change" today)
                        (fun _ st => (Except.ok true, st))
                  | none =>
                    bindRes (record_price failAt st ex.id p none "Price Change" today)
                      (fun _ st => (Except.ok true, st))
                else (Except.ok false, st)
              bindRes priceStep (fun price_recorded st =>
                bindRes (insertTrackingEvent failAt st ex.id "Updated"
                    ("Updated from " ++ data.source_platform.getD "None"))
                  (fun _ st =>
                    (Except.ok
                      { success := true, listing_id := ex.id, mls_number := mls
                        is_new := false, price_recorded := price_recorded
                        message := "Listing updated" }, st))))
        | none =>
          bindRes (insertListing failAt st mls buildingId data now)
            (fun listing_id st =>
              let priceStep : DbRes Bool :=
                if ratTruthy data.price then
                  bindRes (record_price failAt st listing_id (data.price.getD 0)
                      data.listing_date "Initial" today)
                    (fun _ st => (Except.ok true, st))
                else (Except.ok false, st)
              bindRes priceStep (fun price_recorded st =>
                bindRes (insertTrackingEvent failAt st listing_id "Discovered"
                    ("Found on " ++ data.source_platform.getD "None"))
                  (fun _ st =>
                    (Except.ok
                      { success := true, listing_id := listing_id, mls_number := mls
                        is_new := true, price_recorded := price_recorded
                        message := "New listing created" }, st)))))

/-- `ListingService.update_status`.  The terminal set {"Sold", "Expired",
"Cancelled"} clears `is_active`; a truthy sale price together with status
"Sold" records a "Sold" ledger entry at `sale_date or date.today()`. -/
def update_status (failAt : Option Nat) (st : Db) (mls status : String)
    (sale_price : Option Rat) (sale_date : Option Nat) (now today : Nat) :
    DbRes Bool :=
  match findListingByMls st mls with
  | none => (Except.ok false, st)
  | some l =>
    let isActive := !(status == "Sold" || status == "Expired" || status == "Cancelled")
    bindRes (updateListingStatus failAt st l.id status isActive now)
      (fun _ st =>
        let saleStep : DbRes Unit :=
          if ratTruthy sale_price && status == "Sold" then
            bindRes (record_price failAt st l.id (sale_price.getD 0)
                (some (sale_date.getD today)) "Sold" today)
              (fun _ st => (Except.ok (), st))
          else (Except.ok (), st)
        bindRes saleStep (fun _ st =>
          bindRes (insertTrackingEvent failAt st l.id "StatusChange"
              ("Status changed to " ++ status))
            (fun _ st => (Except.ok true, st))))

end ListingService

/-- The response model of the `add_price` boundary route
(`PriceCreateResponse`; `percent_change` is a Python float computed from
exact decimals, modelled as an exact rational). -/
structure PriceCreateResponse where
  success : Bool
  price_history_id : Nat
  previous_price : Option Rat
  price_change : Option Rat
  percent_change : Option Rat
deriving Repr, DecidableEq

/-- The `add_price` route of `app/api/v1/listings.py` (`POST
/{mls_number}/prices`).  Returns `none` for the 404 branch.  The previous
price is read before the ledger call; `price_change` and `percent_change`
are computed only under `if previous_price:` — Python truthiness, so a
previous price of 0 leaves both unset. -/
def add_price (failAt : Option Nat) (st : Db) (mls : String) (price : Rat)
    (priceDate : Option Nat) (event_type : String) (today : Nat) :
    DbRes (Option PriceCreateResponse) :=
  match findListingByMls st mls with
  | none => (Except.ok none, st)
  | some l =>
    let previous_price := (currentPriceQuery st l.id).map (fun r => r.price)
    let price_change :=
      if ratTruthy previous_price then some (price - previous_price.getD 0) else none
    let percent_change :=
      if ratTruthy previous_price then
        if previous_price.getD 0 ≠ 0 then
          some ((price - previous_price.getD 0) / previous_price.getD 0 * 100)
        else none
      else none
    bindRes (ListingService.record_price failAt st l.id price priceDate event_type today)
      (fun pid st =>
        (Except.ok (some
          { success := true, price_history_id := pid
            previous_price := previous_price, price_change := price_change
            percent_change := percent_change }), st))

/-- The normalized dict handed to `HistoricalSaleService.create_sale`
(`building_name` is a plain string there: the CSV path always supplies the
stripped cell and the API model requires it).  The `photos` key is consumed
by the external photo collaborator after the sale insert and never touches
the relational tables, so it is not modelled. -/
structure SaleData where
  building_name : String
  address : Option String := none
  neighborhood : Option String := none
  unit_number : Option String := none
  sale_price : Rat
  sale_date : String
  bedrooms : Option Int := none
  bathrooms : Option Rat := none
  square_feet : Option Int := none
  property_type : Option String := none
  days_on_market : Option Int := none
  notes : Option String := none
  data_source : String := "Manual Entry"
deriving Repr, DecidableEq

/-- `INSERT INTO historical_sale ...` via `Database.execute_insert`. -/
def insertSale (failAt : Option Nat) (st : Db) (buildingId : Nat)
    (data : SaleData) : DbRes Nat :=
  match dbTick failAt st with
  | (false, st) => (Except.error "database error", st)
  | (true, st) =>
    (Except.ok st.nextSaleId,
     { st with
        sales := st.sales ++
          [{ id := st.nextSaleId
             buildingId := buildingId
             unitNumber := data.unit_number
             salePrice := data.sale_price
             saleDate := data.sale_date
             bedrooms := data.bedrooms
             bathrooms := data.bathrooms
             squareFeet := data.square_feet
             propertyType := data.property_type
             daysOnMarket := data.days_on_market
             notes := data.notes
             dataSource := data.data_source }]
        nextSaleId := st.nextSaleId + 1 })

/-- Recovers the input fields of a stored `historical_sale` row (everything
except the surrogate id and the resolved building id). -/
def saleRowFields (r : SaleRow) : SaleData :=
  { building_name := "", address := none, neighborhood := none
    unit_number := r.unitNumber, sale_price := r.salePrice
    sale_date := r.saleDate, bedrooms := r.bedrooms, bathrooms := r.bathrooms
    square_feet := r.squareFeet, property_type := r.propertyType
    days_on_market := r.daysOnMarket, notes := r.notes
    data_source := r.dataSource }

namespace HistoricalSaleService

/-- `HistoricalSaleService._get_or_create_building`: unlike the listing
variant there is no both-absent early return; the name lookup always runs
(`WHERE name = NULL` matches nothing), then the address lookup, then the
create with `building_address = address or name or "Unknown"`. -/
def get_or_create_building (failAt : Option Nat) (st : Db) (name : String)
    (address neighborhood : Option String) : DbRes Nat :=
  match findBuildingByName st name with
  | some b => (Except.ok b.id, st)
  | none =>
    match (if strTruthy address then findBuildingByAddress st (address.getD "") else none) with
    | some b => (Except.ok b.id, st)
    | none =>
      let neighborhoodId :=
        if strTruthy neighborhood then
          (findNeighborhoodByName st (neighborhood.getD "")).map (fun n => n.id)
        else none
      let buildingAddress :=
        (pyOrStr address (pyOrStr (some name) (some "Unknown"))).getD "Unknown"
      insertBuilding failAt st name buildingAddress neighborhoodId "Victoria"

/-- `HistoricalSaleService.create_sale`: resolves the building, then
unconditionally inserts a fresh `historical_sale` row — there is no
duplicate probe of any kind.  Returns the new sale id. -/
def create_sale (failAt : Option Nat) (st : Db) (data : SaleData) : DbRes Nat :=
  bindRes (get_or_create_building failAt st data.building_name data.address data.neighborhood)
    (fun buildingId st =>
      bindRes (insertSale failAt st buildingId data)
        (fun sale_id st => (Except.ok sale_id, st)))

end HistoricalSaleService

/-- DictReader cell access: `fieldnames` zipped against the row, later
duplicate header names overwriting earlier ones, cells missing from a short
row reported as `none` (DictReader fills them with `restval = None`). -/
def dictGet (header row : List String) (key : String) : Option String :=
  match ((header.zip row).filter (fun p => p.1 == key)).getLast? with
  | some p => some p.2
  | none => none

/-- Python truncating `int(...)` on an exact rational. -/
def ratTruncToInt (q : Rat) : Int :=
  if 0 ≤ q then q.floor else q.ceil

/-- `HistoricalSaleService._parse_int`: blank or unparsable yields `none`,
otherwise `int(float(value))`.  `floatParse` stands for Python's `float`
constructor. -/
def parse_int (floatParse : String → Option Rat) (value : Option String) :
    Option Int :=
  match value with
  | none => none
  | some v =>
    if v == "" || v.trim == "" then none
    else
      match floatParse v with
      | some q => some (ratTruncToInt q)
      | none => none

/-- `HistoricalSaleService._parse_float`. -/
def parse_float (floatParse : String → Option Rat) (value : Option String) :
    Option Rat :=
  match value with
  | none => none
  | some v =>
    if v == "" || v.trim == "" then none
    else floatParse v

/-- `row.get(key, "").strip() or None` for the optional text columns: a key
absent from the header reads as `""` hence `none`; a key present in the
header whose cell is missing reads as `None`, and `.strip()` then raises
(`Except.error`), which the per-row handler catches. -/
def optField (header row : List String) (key : String) :
    Except String (Option String) :=
  if header.contains key then
    match dictGet header row key with
    | none => Except.error "NoneType object has no attribute strip"
    | some s => Except.ok (if s.trim == "" then none else some s.trim)
  else Except.ok none

/-- The fixed ordered set of accepted date patterns. -/
def dateFormats : List String :=
  ["%Y-%m-%d", "%m/%d/%Y", "%d/%m/%Y", "%m-%d-%Y"]

/-- The result dict of `import_csv`. -/
structure ImportResults where
  success : Bool
  total_rows : Nat
  imported : Nat
  skipped : Nat
  errors : List String
deriving Repr, DecidableEq

/-- Error-message prefix carrying the 1-based row number (header = row 1,
first data row = row 2; the loop is `enumerate(reader, start=2)`). -/
def rowErr (rowNum : Nat) (msg : String) : String :=
  "Row " ++ toString rowNum ++ ": " ++ msg

/-- The per-row parse/normalize stage of `import_csv`, in source order:
`sale_price` (strip separators, then `Decimal`), `sale_date` (first
matching pattern, re-emitted as ISO), the numeric columns, then the
blank-to-null trimming of the text columns.  `decimalParse` stands for
Python's `Decimal` constructor, `strptimeIso` for
`datetime.strptime(s, fmt).strftime("%Y-%m-%d")`. -/
def rowOutcome (decimalParse : String → Option Rat)
    (strptimeIso : String → String → Option String)
    (floatParse : String → Option Rat)
    (header row : List String) : Except String SaleData :=
  match dictGet header row "sale_price" with
  | none => Except.error "NoneType object has no attribute replace"
  | some rawPrice =>
    match decimalParse ((rawPrice.replace "," "").replace "$" "") with
    | none => Except.error ("Invalid sale_price " ++ rawPrice)
    | some sale_price =>
      match dictGet header row "sale_date" with
      | none => Except.error "strptime argument must be str"
      | some rawDate =>
        match dateFormats.findSome? (fun fmt => strptimeIso rawDate fmt) with
        | none => Except.error ("Invalid date format " ++ rawDate)
        | some isoDate =>
          let bedrooms := parse_int floatParse (dictGet header row "bedrooms")
          let bathrooms := parse_float floatParse (dictGet header row "bathrooms")
          let square_feet := parse_int floatParse (dictGet header row "square_feet")
          let days_on_market := parse_int floatParse (dictGet header row "days_on_market")
          match dictGet header row "building_name" with
          | none => Except.error "NoneType object has no attribute strip"
          | some rawName =>
            match optField header row "address" with
            | Except.error e => Except.error e
            | Except.ok address =>
              match optField header row "neighborhood" with
              | Except.error e => Except.error e
              | Except.ok neighborhood =>
                match optField header row "unit_number" with
                | Except.error e => Except.error e
                | Except.ok unit_number =>
                  match optField header row "property_type" with
                  | Except.error e => Except.error e
                  | Except.ok property_type =>
                    match optField header row "notes" with
                    | Except.error e => Except.error e
                    | Except.ok notes =>
                      Except.ok
                        { building_name := rawName.trim
                          address := address
                          neighborhood := neighborhood
                          unit_number := unit_number
                          sale_price := sale_price
                          sale_date := isoDate
                          bedrooms := bedrooms
                          bathrooms := bathrooms
                          square_feet := square_feet
                          property_type := property_type
                          days_on_market := days_on_market
                          notes := notes
                          data_source := "CSV Import" }

/-- One iteration of the `import_csv` row loop: count the row, then either
record its parse error, or hand the normalized record to `create_sale`,
catching any exception as a row-indexed error — the batch always
continues. -/
def importRow (decimalParse : String → Option Rat)
    (strptimeIso : String → String → Option String)
    (floatParse : String → Option Rat) (failAt : Option Nat)
    (header : List String) (rowNum : Nat) (row : List String)
    (results : ImportResults) (st : Db) : ImportResults × Db :=
  let results := { results with total_rows := results.total_rows + 1 }
  match rowOutcome decimalParse strptimeIso floatParse header row with
  | Except.error msg =>
    ({ results with errors := results.errors ++ [rowErr rowNum msg]
                    skipped := results.skipped + 1 }, st)
  | Except.ok saleData =>
    match HistoricalSaleService.create_sale failAt st saleData with
    | (Except.error e, st) =>
      ({ results with errors := results.errors ++ [rowErr rowNum e]
                      skipped := results.skipped + 1 }, st)
    | (Except.ok _, st) =>
      ({ results with imported := results.imported + 1 }, st)

/-- The `import_csv` row loop (`enumerate(reader, start=2)`). -/
def importLoop (decimalParse : String → Option Rat)
    (strptimeIso : String → String → Option String)
    (floatParse : String → Option Rat) (failAt : Option Nat)
    (header : List String) :
    Nat → List (List String) → ImportResults → Db → ImportResults × Db
  | _, [], results, st => (results, st)
  | rowNum, row :: rest, results, st =>
    let (results, st) :=
      importRow decimalParse strptimeIso floatParse failAt header rowNum row results st
    importLoop decimalParse strptimeIso floatParse failAt header (rowNum + 1) rest results st

/-- The fixed required-column set. -/
def requiredColumns : List String := ["building_name", "sale_price", "sale_date"]

namespace HistoricalSaleService

/-- `HistoricalSaleService.import_csv`.  The input is the record stream the
`csv` module produced from the raw text: the first record is the header
(`reader.fieldnames`), absent exactly when the stream is empty.  The whole
batch is rejected only by the two header checks; afterwards every row is
processed independently. -/
def import_csv (decimalParse : String → Option Rat)
    (strptimeIso : String → String → Option String)
    (floatParse : String → Option Rat) (failAt : Option Nat) (st : Db)
    (csvRows : List (List String)) : ImportResults × Db :=
  let init : ImportResults :=
    { success := true, total_rows := 0, imported := 0, skipped := 0, errors := [] }
  match csvRows with
  | [] => ({ init with success := false, errors := ["CSV has no headers"] }, st)
  | header :: dataRows =>
    let missing := requiredColumns.filter (fun c => !header.contains c)
    if missing.isEmpty then
      importLoop decimalParse strptimeIso floatParse failAt header 2 dataRows init st
    else
      ({ init with success := false
                   errors := ["Missing required columns: " ++ String.intercalate ", " missing] }, st)

end HistoricalSaleService

/-- The building-resolution-independent core of a sale record (the
`building_name` / `address` / `neighborhood` inputs are consumed by entity
resolution and not stored on the `historical_sale` row itself). -/
def saleCore (d : SaleData) : SaleData :=
  { d with building_name := "", address := none, neighborhood := none }

/-- Specification-side restatement of the importer's per-row error log:
each failing row contributes exactly one message carrying its own 1-based
row number, independently of every other row. -/
def rowErrors (decimalParse : String → Option Rat)
    (strptimeIso : String → String → Option String)
    (floatParse : String → Option Rat) (header : List String) :
    Nat → List (List String) → List String
  | _, [] => []
  | n, row :: rest =>
    (match rowOutcome decimalParse strptimeIso floatParse header row with
     | Except.error m => [rowErr n m]
     | Except.ok _ => []) ++
    rowErrors decimalParse strptimeIso floatParse header (n + 1) rest

/-- Specification-side restatement of the rows the importer persists: the
parse outcomes of the successful rows, each independent of the others. -/
def okRows (decimalParse : String → Option Rat)
    (strptimeIso : String → String → Option String)
    (floatParse : String → Option Rat) (header : List String)
    (rows : List (List String)) : List SaleData :=
  rows.filterMap (fun row =>
    (rowOutcome decimalParse strptimeIso floatParse header row).toOption)

/-- One artifact subdirectory: its name (an MLS number or a sale id) and
`len(list(dir.iterdir()))`, the entry count `purge_orphaned_photos` adds to
the deleted counter before `shutil.rmtree`. -/
structure ArtifactDir where
  name : String
  fileCount : Nat
deriving Repr, DecidableEq

/-- The artifact store: the two fixed roots, each either absent (`none`) or
holding its subdirectories. -/
structure PhotoFs where
  listingsRoot : Option (List ArtifactDir)
  historicalRoot : Option (List ArtifactDir)
deriving Repr, DecidableEq

/-- The stats dict of `purge_orphaned_photos`. -/
structure PurgeStats where
  listings_deleted : Nat
  historical_deleted : Nat
  errors : List String
deriving Repr, DecidableEq

namespace PhotoService

/-- `PhotoService.purge_orphaned_photos`.  The two store queries are passed
as their outcomes (`db.execute` either returns the rows or raises).  A
failed query leaves the corresponding live set at its initial `set()` value
and only appends an error; each deletion pass then removes every
subdirectory whose name is not in the (possibly empty) live set. -/
def purge_orphaned_photos (mlsQuery : Except String (List String))
    (saleIdQuery : Except String (List Nat)) (fs : PhotoFs) :
    PurgeStats × PhotoFs :=
  let mlsStep : List String × List String :=
    match mlsQuery with
    | Except.ok rows => (rows, [])
    | Except.error e => ([], ["Could not fetch active listings: " ++ e])
  let active_mls := mlsStep.1
  let listingPass : Option (List ArtifactDir) × Nat :=
    match fs.listingsRoot with
    | none => (none, 0)
    | some dirs =>
      (some (dirs.filter (fun d => active_mls.contains d.name)),
       ((dirs.filter (fun d => !active_mls.contains d.name)).map
          (fun d => d.fileCount)).sum)
  let saleStep : List String × List String :=
    match saleIdQuery with
    | Except.ok rows => (rows.map toString, [])
    | Except.error e => ([], ["Could not fetch historical sales: " ++ e])
  let active_sale_ids := saleStep.1
  let historicalPass : Option (List ArtifactDir) × Nat :=
    match fs.historicalRoot with
    | none => (none, 0)
    | some dirs =>
      (some (dirs.filter (fun d => active_sale_ids.contains d.name)),
       ((dirs.filter (fun d => !active_sale_ids.contains d.name)).map
          (fun d => d.fileCount)).sum)
  ({ listings_deleted := listingPass.2
     historical_deleted := historicalPass.2
     errors := mlsStep.2 ++ saleStep.2 },
   { listingsRoot := listingPass.1, historicalRoot := historicalPass.1 })

end PhotoService

/-! ## Concrete fixtures used by witnesses and counterexamples -/

/-- A listing row with only identity fields of interest. -/
def sampleListing (id : Nat) (mls : String) : ListingRow :=
  { id := id, mlsNumber := mls, buildingId := none, unitNumber := none
    status := "Active", bedrooms := none, bathrooms := none, squareFeet := none
    propertyType := none, listingDate := none, daysOnMarket := none
    description := none, listingAgent := none, listingBrokerage := none
    sourceUrl := none, sourcePlatform := "Manual", isActive := true
    firstSeenAt := 0, lastSeenAt := 0, createdAt := 0, updatedAt := 0 }

/-- A store holding the given buildings, listings and price history. -/
def fixtureDb (bs : List Building) (ls : List ListingRow) (ph : List PriceRow) : Db :=
  { emptyDb with buildings := bs, listings := ls, priceHistory := ph
                 nextBuildingId := 50, nextListingId := 60, nextPriceId := 70
                 nextEventId := 80, nextSaleId := 90 }

/-! ## Infrastructure lemmas -/

theorem bindRes_ok {α β : Type} (a : α) (st : Db) (f : α → Db → DbRes β) :
    bindRes (Except.ok a, st) f = f a st := rfl

theorem bindRes_error {α β : Type} (e : String) (st : Db) (f : α → Db → DbRes β) :
    bindRes (Except.error e, st) f = (Except.error e, st) := rfl

theorem dbTick_none (st : Db) :
    dbTick none st = (true, { st with writeCount := st.writeCount + 1 }) := rfl

theorem insertBuilding_none (st : Db) (name address : String)
    (nid : Option Nat) (city : String) :
    insertBuilding none st name address nid city =
      (Except.ok st.nextBuildingId,
       { st with
          buildings := st.buildings ++
            [{ id := st.nextBuildingId, name := name, address := address
               neighborhoodId := nid, city := city }]
          nextBuildingId := st.nextBuildingId + 1
          writeCount := st.writeCount + 1 }) := rfl

theorem insertPriceRow_none (st : Db) (lid : Nat) (p : Rat) (d : Nat) (k : String) :
    insertPriceRow none st lid p d k =
      (Except.ok st.nextPriceId,
       { st with
          priceHistory := st.priceHistory ++
            [{ id := st.nextPriceId, listingId := lid, price := p
               recordedDate := d, eventType := k }]
          nextPriceId := st.nextPriceId + 1
          writeCount := st.writeCount + 1 }) := rfl

theorem insertTrackingEvent_none (st : Db) (lid : Nat) (k details : String) :
    insertTrackingEvent none st lid k details =
      (Except.ok st.nextEventId,
       { st with
          trackingEvents := st.trackingEvents ++
            [{ id := st.nextEventId, listingId := lid, eventType := k
               details := details }]
          nextEventId := st.nextEventId + 1
          writeCount := st.writeCount + 1 }) := rfl

theorem updateListingFull_none (st : Db) (lid : Nat) (bid : Option Nat)
    (data : ListingData) (now : Nat) :
    updateListingFull none st lid bid data now =
      (Except.ok 1,
       { st with
          listings := st.listings.map (fun l =>
            if l.id = lid then overwriteListingRow l bid data now else l)
          writeCount := st.writeCount + 1 }) := rfl

theorem updateListingStatus_none (st : Db) (lid : Nat) (status : String)
    (isActive : Bool) (now : Nat) :
    updateListingStatus none st lid status isActive now =
      (Except.ok 1,
       { st with
          listings := st.listings.map (fun l =>
            if l.id = lid then
              { l with status := status, isActive := isActive
                       lastSeenAt := now, updatedAt := now }
            else l)
          writeCount := st.writeCount + 1 }) := rfl

theorem insertSale_none (st : Db) (bid : Nat) (data : SaleData) :
    insertSale none st bid data =
      (Except.ok st.nextSaleId,
       { st with
          sales := st.sales ++
            [{ id := st.nextSaleId, buildingId := bid
               unitNumber := data.unit_number, salePrice := data.sale_price
               saleDate := data.sale_date, bedrooms := data.bedrooms
               bathrooms := data.bathrooms, squareFeet := data.square_feet
               propertyType := data.property_type
               daysOnMarket := data.days_on_market, notes := data.notes
               dataSource := data.data_source }]
          nextSaleId := st.nextSaleId + 1
          writeCount := st.writeCount + 1 }) := rfl

theorem dbTick_at (failAt : Option Nat) (st : Db)
    (h : failAt ≠ some st.writeCount) :
    dbTick failAt st = (true, { st with writeCount := st.writeCount + 1 }) := by
  unfold dbTick
  rw [if_neg h]

theorem dbTick_hit (st : Db) :
    dbTick (some st.writeCount) st =
      (false, { st with writeCount := st.writeCount + 1 }) := by
  unfold dbTick
  rw [if_pos rfl]

theorem insertBuilding_at (failAt : Option Nat) (st : Db)
    (h : failAt ≠ some st.writeCount) (name address : String)
    (nid : Option Nat) (city : String) :
    insertBuilding failAt st name address nid city =
      (Except.ok st.nextBuildingId,
       { st with
          buildings := st.buildings ++
            [{ id := st.nextBuildingId, name := name, address := address
               neighborhoodId := nid, city := city }]
          nextBuildingId := st.nextBuildingId + 1
          writeCount := st.writeCount + 1 }) := by
  unfold insertBuilding
  rw [dbTick_at failAt st h]

theorem insertListing_at (failAt : Option Nat) (st : Db)
    (h : failAt ≠ some st.writeCount) (mls : String)
    (bid : Option Nat) (data : ListingData) (now : Nat) :
    insertListing failAt st mls bid data now =
      (Except.ok st.nextListingId,
       { st with
          listings := st.listings ++
            [{ id := st.nextListingId
               mlsNumber := mls
               buildingId := bid
               unitNumber := data.unit_number
               status := data.status.getD "Active"
               bedrooms := data.bedrooms
               bathrooms := data.bathrooms
               squareFeet := data.square_feet
               propertyType := data.property_type
               listingDate := data.listing_date
               daysOnMarket := data.days_on_market
               description := data.description
               listingAgent := data.listing_agent
               listingBrokerage := data.listing_brokerage
               sourceUrl := data.source_url
               sourcePlatform := data.source_platform.getD "Manual"
               isActive := true
               firstSeenAt := now
               lastSeenAt := now
               createdAt := now
               updatedAt := now }]
          nextListingId := st.nextListingId + 1
          writeCount := st.writeCount + 1 }) := by
  unfold insertListing
  rw [dbTick_at failAt st h]

theorem insertPriceRow_at (failAt : Option Nat) (st : Db)
    (h : failAt ≠ some st.writeCount) (lid : Nat) (p : Rat)
    (d : Nat) (k : String) :
    insertPriceRow failAt st lid p d k =
      (Except.ok st.nextPriceId,
       { st with
          priceHistory := st.priceHistory ++
            [{ id := st.nextPriceId, listingId := lid, price := p
               recordedDate := d, eventType := k }]
          nextPriceId := st.nextPriceId + 1
          writeCount := st.writeCount + 1 }) := by
  unfold insertPriceRow
  rw [dbTick_at failAt st h]

theorem insertTrackingEvent_hit (st : Db) (lid : Nat) (k details : String) :
    insertTrackingEvent (some st.writeCount) st lid k details =
      (Except.error "database error", { st with writeCount := st.writeCount + 1 }) := by
  unfold insertTrackingEvent
  rw [dbTick_hit st]

theorem strTruthy_some_true {s : String} (h : s ≠ "") :
    strTruthy (some s) = true := by
  simp [strTruthy, h]

theorem ratTruthy_some_true {q : Rat} (h : q ≠ 0) :
    ratTruthy (some q) = true := by
  simp [ratTruthy, h]

theorem find?_eq_some_of_filter_eq_singleton {α : Type} {p : α → Bool}
    {l : List α} {a : α} (h : l.filter p = [a]) : l.find? p = some a := by
  induction l with
  | nil => simp at h
  | cons x xs ih =>
    by_cases hx : p x
    · simp [List.filter_cons, hx] at h
      rw [List.find?_cons_of_pos _ hx, h.1]
    · simp [List.filter_cons, hx] at h
      rw [List.find?_cons_of_neg _ hx]
      exact ih h

theorem find?_eq_none_of_filter_eq_nil {α : Type} {p : α → Bool}
    {l : List α} (h : l.filter p = []) : l.find? p = none := by
  rw [List.find?_eq_none]
  intro x hx hpx
  have := List.filter_eq_nil_iff.mp h x hx
  simp [hpx] at this

theorem classifyEventType_not_pc (st : Db) (lid : Nat) (p : Rat) {hint : String}
    (h : hint ≠ "Price Change") :
    ListingService.classifyEventType st lid p hint = hint := by
  unfold ListingService.classifyEventType
  rw [if_neg h]

theorem classifyEventType_pc_none (st : Db) (lid : Nat) (p : Rat)
    (hq : currentPriceQuery st lid = none) :
    ListingService.classifyEventType st lid p "Price Change" = "Price Change" := by
  unfold ListingService.classifyEventType
  simp [hq]

theorem classifyEventType_pc_some (st : Db) (lid : Nat) (p : Rat) {prev : PriceRow}
    (hq : currentPriceQuery st lid = some prev) :
    ListingService.classifyEventType st lid p "Price Change" =
      (if p < prev.price then "Price Drop"
       else if prev.price < p then "Price Increase"
       else "Price Change") := by
  unfold ListingService.classifyEventType
  simp [hq]

theorem record_price_dedup_hit (st : Db) (lid : Nat) (p : Rat) (d : Nat)
    (hint : String) (today : Nat) {ex : PriceRow}
    (h : findPriceRowByKey st lid d p = some ex) :
    ListingService.record_price none st lid p (some d) hint today =
      (Except.ok ex.id, st) := by
  unfold ListingService.record_price
  simp [h]

theorem record_price_dedup_miss (st : Db) (lid : Nat) (p : Rat) (d : Nat)
    (hint : String) (today : Nat)
    (h : findPriceRowByKey st lid d p = none) :
    ListingService.record_price none st lid p (some d) hint today =
      (Except.ok st.nextPriceId,
       { st with
          priceHistory := st.priceHistory ++
            [{ id := st.nextPriceId, listingId := lid, price := p
               recordedDate := d
               eventType := ListingService.classifyEventType st lid p hint }]
          nextPriceId := st.nextPriceId + 1
          writeCount := st.writeCount + 1 }) := by
  unfold ListingService.record_price
  simp [h, insertPriceRow_none]

/-! ## C2: idempotent price recording -/

/-- C2: `recordPrice` is idempotent on `(listingId, date, price)`.  If
exactly the row `ex` carries that triple, the call returns `ex.id` and
changes nothing; and starting from a state with no such row, the first call
inserts one row, a second identical call returns the very same id without
inserting, and exactly one row with the triple persists. -/
theorem recordPrice_idempotent (st : Db) (lid : Nat) (p : Rat) (d today : Nat)
    (hint hint2 : String) :
    (∀ ex : PriceRow,
      st.priceHistory.filter (fun r =>
        decide (r.listingId = lid ∧ r.recordedDate = d ∧ r.price = p)) = [ex] →
      ListingService.record_price none st lid p (some d) hint today =
        (Except.ok ex.id, st)) ∧
    (st.priceHistory.filter (fun r =>
        decide (r.listingId = lid ∧ r.recordedDate = d ∧ r.price = p)) = [] →
      ∃ st1,
        ListingService.record_price none st lid p (some d) hint today =
          (Except.ok st.nextPriceId, st1) ∧
        ListingService.record_price none st1 lid p (some d) hint2 today =
          (Except.ok st.nextPriceId, st1) ∧
        (st1.priceHistory.filter (fun r =>
          decide (r.listingId = lid ∧ r.recordedDate = d ∧ r.price = p))).length = 1) := by
  constructor
  · intro ex hex
    exact record_price_dedup_hit st lid p d hint today
      (find?_eq_some_of_filter_eq_singleton hex)
  · intro hnone
    have hfind : findPriceRowByKey st lid d p = none :=
      find?_eq_none_of_filter_eq_nil hnone
    refine ⟨_, record_price_dedup_miss st lid p d hint today hfind, ?_, ?_⟩
    · have hfilter :
        ({ st with
            priceHistory := st.priceHistory ++
              [{ id := st.nextPriceId, listingId := lid, price := p
                 recordedDate := d
                 eventType := ListingService.classifyEventType st lid p hint }]
            nextPriceId := st.nextPriceId + 1
            writeCount := st.writeCount + 1 } : Db).priceHistory.filter (fun r =>
          decide (r.listingId = lid ∧ r.recordedDate = d ∧ r.price = p)) =
          [{ id := st.nextPriceId, listingId := lid, price := p, recordedDate := d
             eventType := ListingService.classifyEventType st lid p hint }] := by
        simp only [List.filter_append, hnone]
        simp
      exact record_price_dedup_hit _ lid p d hint2 today
        (find?_eq_some_of_filter_eq_singleton hfilter)
    · simp only [List.filter_append, hnone]
      simp

/-- Witness for C2: from an empty store, recording (listing 1, date 5,
price 500000) twice yields the id 1 both times and one persisting row. -/
theorem recordPrice_idempotent_witness :
    emptyDb.priceHistory.filter (fun r =>
      decide (r.listingId = 1 ∧ r.recordedDate = 5 ∧ r.price = (500000 : Rat))) = [] ∧
    ∃ st1,
      ListingService.record_price none emptyDb 1 500000 (some 5) "Initial" 5 =
        (Except.ok emptyDb.nextPriceId, st1) ∧
      ListingService.record_price none st1 1 500000 (some 5) "Initial" 5 =
        (Except.ok emptyDb.nextPriceId, st1) ∧
      (st1.priceHistory.filter (fun r =>
        decide (r.listingId = 1 ∧ r.recordedDate = 5 ∧ r.price = (500000 : Rat)))).length = 1 :=
  ⟨rfl, (recordPrice_idempotent emptyDb 1 500000 5 5 "Initial" "Initial").2 rfl⟩

/-! ## C3: event-kind resolution -/

/-- C3: when `_record_price` actually inserts (no identical
`(listingId, date, price)` row short-circuits it), the stored kind follows
the resolution rule: a hint other than "Price Change" (in particular
"Initial" and "Sold") is stored unchanged; the "Price Change" hint is
stored unchanged when no prior entry exists, and otherwise becomes "Price
Drop" / "Price Increase" / "Price Change" according to the comparison with
the most recent prior entry's price. -/
theorem recordPrice_event_kind (st : Db) (lid : Nat) (p : Rat) (d today : Nat)
    (hint : String) (hdedup : findPriceRowByKey st lid d p = none) :
    ∃ st2 row,
      ListingService.record_price none st lid p (some d) hint today =
        (Except.ok st.nextPriceId, st2) ∧
      st2.priceHistory = st.priceHistory ++ [row] ∧
      row.listingId = lid ∧ row.price = p ∧ row.recordedDate = d ∧
      (hint ≠ "Price Change" → row.eventType = hint) ∧
      (hint = "Price Change" →
        (currentPriceQuery st lid = none → row.eventType = hint) ∧
        (∀ prev, currentPriceQuery st lid = some prev →
          (p < prev.price → row.eventType = "Price Drop") ∧
          (prev.price < p → row.eventType = "Price Increase") ∧
          (p = prev.price → row.eventType = "Price Change"))) := by
  refine ⟨_, _, record_price_dedup_miss st lid p d hint today hdedup,
    rfl, rfl, rfl, rfl, ?_, ?_⟩
  · intro h
    exact classifyEventType_not_pc st lid p h
  · rintro rfl
    constructor
    · intro hq
      exact classifyEventType_pc_none st lid p hq
    · intro prev hq
      rw [classifyEventType_pc_some st lid p hq]
      refine ⟨fun hlt => by rw [if_pos hlt], fun hgt => ?_, fun heq => ?_⟩
      · rw [if_neg (not_lt.mpr (le_of_lt hgt)), if_pos hgt]
      · rw [if_neg (by rw [heq]; exact lt_irrefl _), if_neg (by rw [heq]; exact lt_irrefl _)]

/-- Witness for C3, matching the spec's example: prior price 500000,
recording 475000 with hint "Price Change" stores kind "Price Drop". -/
theorem recordPrice_event_kind_witness :
    findPriceRowByKey (fixtureDb [] [sampleListing 1 "M1"]
        [{ id := 9, listingId := 1, price := 500000, recordedDate := 1
           eventType := "Initial" }]) 1 2 475000 = none ∧
    ∃ st2 row,
      ListingService.record_price none
        (fixtureDb [] [sampleListing 1 "M1"]
          [{ id := 9, listingId := 1, price := 500000, recordedDate := 1
             eventType := "Initial" }]) 1 475000 (some 2) "Price Change" 2 =
        (Except.ok (fixtureDb [] [sampleListing 1 "M1"]
          [{ id := 9, listingId := 1, price := 500000, recordedDate := 1
             eventType := "Initial" }]).nextPriceId, st2) ∧
      st2.priceHistory =
        (fixtureDb [] [sampleListing 1 "M1"]
          [{ id := 9, listingId := 1, price := 500000, recordedDate := 1
             eventType := "Initial" }]).priceHistory ++ [row] ∧
      row.listingId = 1 ∧ row.price = 475000 ∧ row.recordedDate = 2 ∧
      (("Price Change" : String) ≠ "Price Change" → row.eventType = "Price Change") ∧
      (("Price Change" : String) = "Price Change" →
        (currentPriceQuery (fixtureDb [] [sampleListing 1 "M1"]
            [{ id := 9, listingId := 1, price := 500000, recordedDate := 1
               eventType := "Initial" }]) 1 = none → row.eventType = "Price Change") ∧
        (∀ prev, currentPriceQuery (fixtureDb [] [sampleListing 1 "M1"]
            [{ id := 9, listingId := 1, price := 500000, recordedDate := 1
               eventType := "Initial" }]) 1 = some prev →
          ((475000 : Rat) < prev.price → row.eventType = "Price Drop") ∧
          (prev.price < (475000 : Rat) → row.eventType = "Price Increase") ∧
          ((475000 : Rat) = prev.price → row.eventType = "Price Change"))) :=
  ⟨by decide,
   recordPrice_event_kind (fixtureDb [] [sampleListing 1 "M1"]
      [{ id := 9, listingId := 1, price := 500000, recordedDate := 1
         eventType := "Initial" }]) 1 475000 2 2 "Price Change" (by decide)⟩

/-! ## C7: building entity resolution -/

theorem not_both_false {a b : Bool} (h : ¬(a = false ∧ b = false)) :
    (!a && !b) = false := by
  cases a <;> cases b <;> simp_all

theorem guarded_lookup_some {c : Bool} {x : Option Building} {b : Building}
    (h : (if c = true then x else none) = some b) : c = true ∧ x = some b := by
  cases c
  · simp at h
  · simp at h
    exact ⟨rfl, h⟩

theorem gocb_both_blank (st : Db) {name address : Option String}
    (neighborhood : Option String)
    (h1 : strTruthy name = false) (h2 : strTruthy address = false) :
    ListingService.get_or_create_building none st name address neighborhood =
      (Except.ok none, st) := by
  unfold ListingService.get_or_create_building
  simp [h1, h2]

theorem gocb_name_hit (st : Db) {name : Option String}
    (address neighborhood : Option String) {b : Building}
    (hn : strTruthy name = true)
    (hb : findBuildingByName st (name.getD "") = some b) :
    ListingService.get_or_create_building none st name address neighborhood =
      (Except.ok (some b.id), st) := by
  unfold ListingService.get_or_create_building
  simp [hn, hb]

theorem gocb_addr_hit (st : Db) {name address : Option String}
    (neighborhood : Option String) {b : Building}
    (hnMiss : (if strTruthy name = true then findBuildingByName st (name.getD "") else none) = none)
    (ha : strTruthy address = true)
    (hb : findBuildingByAddress st (address.getD "") = some b) :
    ListingService.get_or_create_building none st name address neighborhood =
      (Except.ok (some b.id), st) := by
  unfold ListingService.get_or_create_building
  simp [hnMiss, ha, hb]

theorem gocb_create (st : Db) {name address : Option String}
    (neighborhood : Option String)
    (h0 : (!strTruthy name && !strTruthy address) = false)
    (hnMiss : (if strTruthy name = true then findBuildingByName st (name.getD "") else none) = none)
    (haMiss : (if strTruthy address = true then findBuildingByAddress st (address.getD "") else none) = none) :
    ListingService.get_or_create_building none st name address neighborhood =
      (Except.ok (some st.nextBuildingId),
       { st with
          buildings := st.buildings ++
            [{ id := st.nextBuildingId
               name := (pyOrStr name (some ((pyOrStr address (pyOrStr name (some "Unknown"))).getD "Unknown"))).getD "Unknown"
               address := (pyOrStr address (pyOrStr name (some "Unknown"))).getD "Unknown"
               neighborhoodId :=
                 if strTruthy neighborhood then
                   (findNeighborhoodByName st (neighborhood.getD "")).map (fun n => n.id)
                 else none
               city := "Victoria" }]
          nextBuildingId := st.nextBuildingId + 1
          writeCount := st.writeCount + 1 }) := by
  unfold ListingService.get_or_create_building
  simp [h0, hnMiss, haMiss, insertBuilding_none, bindRes_ok]

/-- A building-resolution call with `failAt = none` never raises and only
ever touches the `building` table. -/
theorem gocb_ok (st : Db) (name address neighborhood : Option String) :
    ∃ (bid : Option Nat) (stB : Db),
      ListingService.get_or_create_building none st name address neighborhood =
        (Except.ok bid, stB) ∧
      stB.neighborhoods = st.neighborhoods ∧ stB.listings = st.listings ∧
      stB.priceHistory = st.priceHistory ∧ stB.trackingEvents = st.trackingEvents ∧
      stB.sales = st.sales ∧ stB.nextListingId = st.nextListingId ∧
      stB.nextPriceId = st.nextPriceId ∧ stB.nextEventId = st.nextEventId ∧
      stB.nextSaleId = st.nextSaleId := by
  by_cases h1 : strTruthy name = false ∧ strTruthy address = false
  · exact ⟨none, st, gocb_both_blank st neighborhood h1.1 h1.2, rfl, rfl, rfl, rfl,
      rfl, rfl, rfl, rfl, rfl⟩
  · have h0 : (!strTruthy name && !strTruthy address) = false := not_both_false h1
    cases hnm : (if strTruthy name = true then findBuildingByName st (name.getD "") else none) with
    | some b =>
      obtain ⟨hn, hb⟩ := guarded_lookup_some hnm
      exact ⟨some b.id, st, gocb_name_hit st address neighborhood hn hb, rfl, rfl,
        rfl, rfl, rfl, rfl, rfl, rfl, rfl⟩
    | none =>
      cases ham : (if strTruthy address = true then findBuildingByAddress st (address.getD "") else none) with
      | some b =>
        obtain ⟨ha, hb⟩ := guarded_lookup_some ham
        exact ⟨some b.id, st, gocb_addr_hit st neighborhood hnm ha hb, rfl, rfl,
          rfl, rfl, rfl, rfl, rfl, rfl, rfl⟩
      | none =>
        exact ⟨some st.nextBuildingId, _, gocb_create st neighborhood h0 hnm ham,
          rfl, rfl, rfl, rfl, rfl, rfl, rfl, rfl, rfl⟩

/-- C7 counterexample: with only building 1 ("Alpha", address "X") in the
store, resolving (name "Beta", address "X") hits the address match and
returns building 1, while a subsequent call with the same name "Beta" but
address "Y" creates a fresh building 50 — two calls with the same name do
NOT always yield the same building id regardless of address. -/
theorem resolveBuilding_name_determinism_counterexample :
    (ListingService.get_or_create_building none
        (fixtureDb [{ id := 1, name := "Alpha", address := "X"
                      neighborhoodId := none, city := "Victoria" }] [] [])
        (some "Beta") (some "X") none).1 = Except.ok (some 1) ∧
    (ListingService.get_or_create_building none
        (ListingService.get_or_create_building none
          (fixtureDb [{ id := 1, name := "Alpha", address := "X"
                        neighborhoodId := none, city := "Victoria" }] [] [])
          (some "Beta") (some "X") none).2
        (some "Beta") (some "Y") none).1 = Except.ok (some 50) ∧
    (1 : Nat) ≠ 50 :=
  ⟨rfl, rfl, by decide⟩

/-- C7 amended: resolution returns null exactly when name and address are
both blank; an exact name match wins and is insensitive to the address and
neighborhood arguments (so once a building with the name exists, calls with
that name always yield its id); the address lookup runs only when the name
lookup missed, returning the matched building's id with no insert; and only
when both lookups miss is a single new building inserted.  (Name
determinism is NOT unconditional: with no building of that name, an
address match can divert to another building, see the counterexample.) -/
theorem resolveBuilding_amended (st : Db) (name address neighborhood : Option String) :
    ((ListingService.get_or_create_building none st name address neighborhood).1 =
        Except.ok none ↔ (strTruthy name = false ∧ strTruthy address = false)) ∧
    (∀ b : Building, strTruthy name = true →
      findBuildingByName st (name.getD "") = some b →
      ∀ address2 neighborhood2 : Option String,
        ListingService.get_or_create_building none st name address2 neighborhood2 =
          (Except.ok (some b.id), st)) ∧
    (∀ b : Building,
      (if strTruthy name = true then findBuildingByName st (name.getD "") else none) = none →
      strTruthy address = true →
      findBuildingByAddress st (address.getD "") = some b →
      ListingService.get_or_create_building none st name address neighborhood =
        (Except.ok (some b.id), st)) ∧
    ((!strTruthy name && !strTruthy address) = false →
      (if strTruthy name = true then findBuildingByName st (name.getD "") else none) = none →
      (if strTruthy address = true then findBuildingByAddress st (address.getD "") else none) = none →
      ∃ nb : Building,
        ListingService.get_or_create_building none st name address neighborhood =
          (Except.ok (some st.nextBuildingId),
           { st with buildings := st.buildings ++ [nb]
                     nextBuildingId := st.nextBuildingId + 1
                     writeCount := st.writeCount + 1 }) ∧
        nb.id = st.nextBuildingId) := by
  refine ⟨?_, ?_, ?_, ?_⟩
  · constructor
    · intro hres
      by_contra hcon
      have h0 : (!strTruthy name && !strTruthy address) = false := not_both_false hcon
      cases hnm : (if strTruthy name = true then findBuildingByName st (name.getD "") else none) with
      | some b =>
        obtain ⟨hn, hb⟩ := guarded_lookup_some hnm
        rw [gocb_name_hit st address neighborhood hn hb] at hres
        simp at hres
      | none =>
        cases ham : (if strTruthy address = true then findBuildingByAddress st (address.getD "") else none) with
        | some b =>
          obtain ⟨ha, hb⟩ := guarded_lookup_some ham
          rw [gocb_addr_hit st neighborhood hnm ha hb] at hres
          simp at hres
        | none =>
          rw [gocb_create st neighborhood h0 hnm ham] at hres
          simp at hres
    · intro h
      rw [gocb_both_blank st neighborhood h.1 h.2]
  · intro b hn hb address2 neighborhood2
    exact gocb_name_hit st address2 neighborhood2 hn hb
  · intro b hnMiss ha hb
    exact gocb_addr_hit st neighborhood hnMiss ha hb
  · intro h0 hnMiss haMiss
    exact ⟨_, gocb_create st neighborhood h0 hnMiss haMiss, rfl⟩

/-- Witness for C7: a store holding building 1 named "Beta" at address "X";
blank inputs resolve to null, calls with name "Beta" and two different
addresses both return id 1 with no write, a call with the new name "Gamma"
but existing address "X" also returns id 1, and a call missing both lookups
inserts the fresh building 50. -/
theorem resolveBuilding_amended_witness :
    ((ListingService.get_or_create_building none
        (fixtureDb [{ id := 1, name := "Beta", address := "X"
                      neighborhoodId := none, city := "Victoria" }] [] [])
        none none none).1 = Except.ok none ↔
      (strTruthy none = false ∧ strTruthy none = false)) ∧
    ListingService.get_or_create_building none
        (fixtureDb [{ id := 1, name := "Beta", address := "X"
                      neighborhoodId := none, city := "Victoria" }] [] [])
        (some "Beta") (some "Y") none =
      (Except.ok (some 1),
       fixtureDb [{ id := 1, name := "Beta", address := "X"
                    neighborhoodId := none, city := "Victoria" }] [] []) ∧
    ListingService.get_or_create_building none
        (fixtureDb [{ id := 1, name := "Beta", address := "X"
                      neighborhoodId := none, city := "Victoria" }] [] [])
        (some "Gamma") (some "X") none =
      (Except.ok (some 1),
       fixtureDb [{ id := 1, name := "Beta", address := "X"
                    neighborhoodId := none, city := "Victoria" }] [] []) ∧
    ∃ nb : Building,
      ListingService.get_or_create_building none
          (fixtureDb [{ id := 1, name := "Beta", address := "X"
                        neighborhoodId := none, city := "Victoria" }] [] [])
          (some "Gamma") (some "Z") none =
        (Except.ok (some (fixtureDb [{ id := 1, name := "Beta", address := "X"
                                       neighborhoodId := none, city := "Victoria" }] [] []).nextBuildingId),
         { fixtureDb [{ id := 1, name := "Beta", address := "X"
                        neighborhoodId := none, city := "Victoria" }] [] [] with
            buildings := (fixtureDb [{ id := 1, name := "Beta", address := "X"
                                       neighborhoodId := none, city := "Victoria" }] [] []).buildings ++ [nb]
            nextBuildingId := (fixtureDb [{ id := 1, name := "Beta", address := "X"
                                            neighborhoodId := none, city := "Victoria" }] [] []).nextBuildingId + 1
            writeCount := (fixtureDb [{ id := 1, name := "Beta", address := "X"
                                        neighborhoodId := none, city := "Victoria" }] [] []).writeCount + 1 }) ∧
      nb.id = (fixtureDb [{ id := 1, name := "Beta", address := "X"
                            neighborhoodId := none, city := "Victoria" }] [] []).nextBuildingId := by
  refine ⟨(resolveBuilding_amended _ none none none).1, ?_, ?_, ?_⟩
  · exact (resolveBuilding_amended
      (fixtureDb [{ id := 1, name := "Beta", address := "X"
                    neighborhoodId := none, city := "Victoria" }] [] [])
      (some "Beta") (some "Y") none).2.1
      { id := 1, name := "Beta", address := "X", neighborhoodId := none, city := "Victoria" }
      rfl rfl (some "Y") none
  · exact (resolveBuilding_amended
      (fixtureDb [{ id := 1, name := "Beta", address := "X"
                    neighborhoodId := none, city := "Victoria" }] [] [])
      (some "Gamma") (some "X") none).2.2.1
      { id := 1, name := "Beta", address := "X", neighborhoodId := none, city := "Victoria" }
      rfl rfl rfl
  · exact (resolveBuilding_amended
      (fixtureDb [{ id := 1, name := "Beta", address := "X"
                    neighborhoodId := none, city := "Victoria" }] [] [])
      (some "Gamma") (some "Z") none).2.2.2 rfl rfl rfl

/-! ## C9: store failure never skips the deletion pass -/

/-- C9: if the live-MLS store query raises during artifact reconciliation,
the error is appended to the result's errors list but the scan proceeds
with an empty live set: every listing artifact subdirectory present is
deleted recursively (its whole entry count added to the counter), and the
deletion pass is never skipped. -/
theorem purge_orphaned_photos_query_failure (e : String)
    (saleIdQuery : Except String (List Nat)) (fs : PhotoFs)
    (dirs : List ArtifactDir) (h : fs.listingsRoot = some dirs) :
    ("Could not fetch active listings: " ++ e) ∈
      (PhotoService.purge_orphaned_photos (Except.error e) saleIdQuery fs).1.errors ∧
    (PhotoService.purge_orphaned_photos (Except.error e) saleIdQuery fs).2.listingsRoot =
      some [] ∧
    (PhotoService.purge_orphaned_photos (Except.error e) saleIdQuery fs).1.listings_deleted =
      (dirs.map (fun d => d.fileCount)).sum := by
  simp [PhotoService.purge_orphaned_photos, h, List.filter_eq_nil_iff]

/-- Witness for C9 at a concrete input: a failed query, one orphan
directory of 3 files and one of 2; all 5 entries are deleted. -/
theorem purge_orphaned_photos_query_failure_witness :
    ("Could not fetch active listings: db down") ∈
      (PhotoService.purge_orphaned_photos (Except.error "db down") (Except.ok [])
        { listingsRoot := some [⟨"X100", 3⟩, ⟨"X200", 2⟩], historicalRoot := none }).1.errors ∧
    (PhotoService.purge_orphaned_photos (Except.error "db down") (Except.ok [])
        { listingsRoot := some [⟨"X100", 3⟩, ⟨"X200", 2⟩], historicalRoot := none }).2.listingsRoot =
      some [] ∧
    (PhotoService.purge_orphaned_photos (Except.error "db down") (Except.ok [])
        { listingsRoot := some [⟨"X100", 3⟩, ⟨"X200", 2⟩], historicalRoot := none }).1.listings_deleted =
      ([⟨"X100", 3⟩, ⟨"X200", (2 : Nat)⟩].map (fun d : ArtifactDir => d.fileCount)).sum :=
  purge_orphaned_photos_query_failure "db down" (Except.ok [])
    { listingsRoot := some [⟨"X100", 3⟩, ⟨"X200", 2⟩], historicalRoot := none }
    [⟨"X100", 3⟩, ⟨"X200", 2⟩] rfl

/-! ## C1: transactionality of the upsert -/

/-- C1 counterexample: with the tracking-event insert (the call's fourth
write statement) failing, the upsert raises — yet the listing insert and
the price-history insert performed earlier in the same call remain
committed, because every statement commits on its own connection.  The
claim that all writes commit together or not at all is therefore false. -/
theorem upsert_transactionality_counterexample :
    (ListingService.create_or_update_listing (some 3) emptyDb
      { mls_number := some "M1", building_name := some "T", price := some 500000 } 5 5).1 =
      Except.error "database error" ∧
    (ListingService.create_or_update_listing (some 3) emptyDb
      { mls_number := some "M1", building_name := some "T", price := some 500000 } 5 5).2.listings ≠
      [] ∧
    (ListingService.create_or_update_listing (some 3) emptyDb
      { mls_number := some "M1", building_name := some "T", price := some 500000 } 5 5).2.priceHistory ≠
      [] :=
  ⟨rfl, by decide, by decide⟩

/-! ## C8: the boundary recordPrice response -/

theorem record_price_hit_any (st : Db) (lid : Nat) (p : Rat) (pd : Option Nat)
    (hint : String) (today : Nat) {ex : PriceRow}
    (h : findPriceRowByKey st lid (pd.getD today) p = some ex) :
    ListingService.record_price none st lid p pd hint today =
      (Except.ok ex.id, st) := by
  unfold ListingService.record_price
  simp only [h]

theorem record_price_miss_any (st : Db) (lid : Nat) (p : Rat) (pd : Option Nat)
    (hint : String) (today : Nat)
    (h : findPriceRowByKey st lid (pd.getD today) p = none) :
    ListingService.record_price none st lid p pd hint today =
      (Except.ok st.nextPriceId,
       { st with
          priceHistory := st.priceHistory ++
            [{ id := st.nextPriceId, listingId := lid, price := p
               recordedDate := pd.getD today
               eventType := ListingService.classifyEventType st lid p hint }]
          nextPriceId := st.nextPriceId + 1
          writeCount := st.writeCount + 1 }) := by
  unfold ListingService.record_price
  simp only [h]
  rw [insertPriceRow_none]

theorem record_price_none_ok (st : Db) (lid : Nat) (p : Rat) (pd : Option Nat)
    (hint : String) (today : Nat) :
    ∃ pid st2, ListingService.record_price none st lid p pd hint today =
      (Except.ok pid, st2) := by
  cases h : findPriceRowByKey st lid (pd.getD today) p with
  | none => exact ⟨_, _, record_price_miss_any st lid p pd hint today h⟩
  | some ex => exact ⟨_, _, record_price_hit_any st lid p pd hint today h⟩

/-- C8 counterexample: with the listing's only (hence most recent) price
entry at price 0, adding price 100 returns `previous_price = some 0` but
`price_change = none` — the absolute change is NOT returned even though a
previous price is present, because the code guards both computations with
`if previous_price:` and the zero decimal is falsy. -/
theorem add_price_zero_prev_counterexample :
    (add_price none (fixtureDb [] [sampleListing 1 "M1"]
        [{ id := 2, listingId := 1, price := 0, recordedDate := 5
           eventType := "Initial" }])
      "M1" 100 (some 6) "Price Change" 6).1 =
      Except.ok (some { success := true, price_history_id := 70
                        previous_price := some 0, price_change := none
                        percent_change := none }) ∧
    some ((100 : Rat) - 0) ≠ (none : Option Rat) :=
  ⟨rfl, by decide⟩

/-- C8 amended: the boundary operation returns the previous price (the most
recent entry), and the absolute change `new - previous` together with the
percent change `change / previous × 100` — both of which are undefined
(not just the percent change) whenever the previous price is zero or
absent. -/
theorem add_price_amended (st : Db) (mls : String) (p : Rat) (pd : Option Nat)
    (et : String) (today : Nat) :
    (findListingByMls st mls = none →
      add_price none st mls p pd et today = (Except.ok none, st)) ∧
    (∀ l, findListingByMls st mls = some l →
      ∃ resp st2,
        add_price none st mls p pd et today = (Except.ok (some resp), st2) ∧
        resp.previous_price = (currentPriceQuery st l.id).map (fun r => r.price) ∧
        (∀ v, (currentPriceQuery st l.id).map (fun r => r.price) = some v → v ≠ 0 →
          resp.price_change = some (p - v) ∧
          resp.percent_change = some ((p - v) / v * 100)) ∧
        ((currentPriceQuery st l.id).map (fun r => r.price) = none ∨
          (currentPriceQuery st l.id).map (fun r => r.price) = some 0 →
          resp.price_change = none ∧ resp.percent_change = none)) := by
  constructor
  · intro hl
    simp [add_price, hl]
  · intro l hl
    obtain ⟨pid, st2, hrp⟩ := record_price_none_ok st l.id p pd et today
    cases hq : currentPriceQuery st l.id with
    | none =>
      refine ⟨{ success := true, price_history_id := pid, previous_price := none
                price_change := none, percent_change := none }, st2, ?_, ?_, ?_, ?_⟩
      · simp [add_price, hl, hq, hrp, ratTruthy, bindRes]
      · simp [hq]
      · intro v hv
        simp at hv
      · intro _
        exact ⟨rfl, rfl⟩
    | some cur =>
      by_cases hz : cur.price = 0
      · refine ⟨{ success := true, price_history_id := pid
                  previous_price := some cur.price
                  price_change := none, percent_change := none }, st2, ?_, ?_, ?_, ?_⟩
        · simp [add_price, hl, hq, hrp, ratTruthy, hz, bindRes]
        · simp [hq]
        · intro v hv hv0
          simp at hv
          have hv0' : v = 0 := by rw [← hv]; exact hz
          exact absurd hv0' hv0
        · intro _
          exact ⟨rfl, rfl⟩
      · refine ⟨{ success := true, price_history_id := pid
                  previous_price := some cur.price
                  price_change := some (p - cur.price)
                  percent_change := some ((p - cur.price) / cur.price * 100) }, st2,
            ?_, ?_, ?_, ?_⟩
        · simp [add_price, hl, hq, hrp, ratTruthy, hz, bindRes]
        · simp [hq]
        · intro v hv _
          simp at hv
          rw [hv]
          exact ⟨rfl, rfl⟩
        · intro hcon
          rcases hcon with h1 | h1
          · simp at h1
          · simp at h1
            exact absurd h1 hz
    
/-- Witness for C8's amended theorem, matching the spec's exact example:
previous price 500000, new price 475000, change -25000, percent -5. -/
theorem add_price_amended_witness :
    ∃ resp st2,
      add_price none (fixtureDb [] [sampleListing 1 "M1"]
          [{ id := 2, listingId := 1, price := 500000, recordedDate := 5
             eventType := "Initial" }])
        "M1" 475000 (some 6) "Price Change" 6 = (Except.ok (some resp), st2) ∧
      resp.previous_price = some 500000 ∧
      resp.price_change = some (-25000) ∧
      resp.percent_change = some (-5) := by
  obtain ⟨resp, st2, heq, hprev, hsome, hnone⟩ :=
    (add_price_amended (fixtureDb [] [sampleListing 1 "M1"]
        [{ id := 2, listingId := 1, price := 500000, recordedDate := 5
           eventType := "Initial" }])
      "M1" 475000 (some 6) "Price Change" 6).2 (sampleListing 1 "M1") rfl
  obtain ⟨hchg, hpct⟩ := hsome 500000 rfl (by decide)
  refine ⟨resp, st2, heq, ?_, ?_, ?_⟩
  · rw [hprev]
    rfl
  · rw [hchg]
    norm_num
  · rw [hpct]
    norm_num

/-! ## C6: status transitions -/

/-- C6 counterexample: setting status "Sold" with the given sale price 0 on
an existing listing returns true but records NO price-history entry —
`if sale_price and status == "Sold"` treats the zero decimal as absent. -/
theorem update_status_zero_price_counterexample :
    (ListingService.update_status none (fixtureDb [] [sampleListing 1 "M1"] [])
      "M1" "Sold" (some 0) (some 7) 9 9).1 = Except.ok true ∧
    (ListingService.update_status none (fixtureDb [] [sampleListing 1 "M1"] [])
      "M1" "Sold" (some 0) (some 7) 9 9).2.priceHistory = [] :=
  ⟨rfl, rfl⟩

/-- C6 amended: `setStatus` returns false exactly when no listing with the
MLS number exists; otherwise it overwrites the status, sets `isActive`
false for the terminal set {Sold, Expired, Cancelled} and true for every
other status, and — when the status is "Sold" and a NONZERO sale price is
given — invokes the deduplicating ledger with kind "Sold" at that price and
at saleDate (or today if absent), which inserts the entry unless an
identical (price, date) row already exists; with no sold-with-truthy-price
combination the price history is untouched. -/
theorem update_status_amended (st : Db) (mls status : String) (sp : Option Rat)
    (sd : Option Nat) (now today : Nat) :
    (findListingByMls st mls = none →
      ListingService.update_status none st mls status sp sd now today =
        (Except.ok false, st)) ∧
    (∀ l, findListingByMls st mls = some l →
      ∃ st2,
        ListingService.update_status none st mls status sp sd now today =
          (Except.ok true, st2) ∧
        st2.listings = st.listings.map (fun x =>
          if x.id = l.id then
            { x with status := status
                     isActive := !(status == "Sold" || status == "Expired" ||
                                   status == "Cancelled")
                     lastSeenAt := now, updatedAt := now }
          else x) ∧
        (∀ v, sp = some v → v ≠ 0 → status = "Sold" →
          findPriceRowByKey st l.id (sd.getD today) v = none →
          st2.priceHistory = st.priceHistory ++
            [{ id := st.nextPriceId, listingId := l.id, price := v
               recordedDate := sd.getD today, eventType := "Sold" }]) ∧
        (¬(status = "Sold" ∧ ratTruthy sp = true) →
          st2.priceHistory = st.priceHistory)) := by
  constructor
  · intro hl
    simp [ListingService.update_status, hl]
  · intro l hl
    cases hguard : (ratTruthy sp && (status == "Sold")) with
    | false =>
      refine ⟨{ st with
          listings := st.listings.map (fun x =>
            if x.id = l.id then
              { x with status := status
                       isActive := !(status == "Sold" || status == "Expired" ||
                                     status == "Cancelled")
                       lastSeenAt := now, updatedAt := now }
            else x)
          trackingEvents := st.trackingEvents ++
            [{ id := st.nextEventId, listingId := l.id, eventType := "StatusChange"
               details := "Status changed to " ++ status }]
          nextEventId := st.nextEventId + 1
          writeCount := st.writeCount + 1 + 1 }, ?_, rfl, ?_, fun _ => rfl⟩
      · simp [ListingService.update_status, hl, updateListingStatus_none, bindRes,
          hguard, insertTrackingEvent_none]
      · intro v hv hv0 hs _
        rw [hv, hs] at hguard
        simp [ratTruthy_some_true hv0] at hguard
    | true =>
      have hst : status = "Sold" := by
        have := (Bool.and_eq_true _ _).mp hguard
        simpa using this.2
      have hsp : ratTruthy sp = true := ((Bool.and_eq_true _ _).mp hguard).1
      obtain ⟨v0, rfl⟩ : ∃ v0, sp = some v0 := by
        cases sp with
        | none => simp [ratTruthy] at hsp
        | some v0 => exact ⟨v0, rfl⟩
      have hv00 : v0 ≠ 0 := by
        intro h
        rw [h] at hsp
        simp [ratTruthy] at hsp
      subst hst
      cases hded : findPriceRowByKey st l.id (sd.getD today) v0 with
      | none =>
        simp only [findPriceRowByKey, Bool.decide_and] at hded
        refine ⟨{ st with
            listings := st.listings.map (fun x =>
              if x.id = l.id then
                { x with status := "Sold"
                         isActive := !(("Sold" : String) == "Sold" ||
                                       ("Sold" : String) == "Expired" ||
                                       ("Sold" : String) == "Cancelled")
                         lastSeenAt := now, updatedAt := now }
              else x)
            priceHistory := st.priceHistory ++
              [{ id := st.nextPriceId, listingId := l.id, price := v0
                 recordedDate := sd.getD today, eventType := "Sold" }]
            nextPriceId := st.nextPriceId + 1
            trackingEvents := st.trackingEvents ++
              [{ id := st.nextEventId, listingId := l.id, eventType := "StatusChange"
                 details := "Status changed to " ++ "Sold" }]
            nextEventId := st.nextEventId + 1
            writeCount := st.writeCount + 1 + 1 + 1 }, ?_, rfl, ?_, ?_⟩
        · simp [ListingService.update_status, hl, updateListingStatus_none, bindRes,
            ratTruthy_some_true hv00, ListingService.record_price, findPriceRowByKey,
            hded, ListingService.classifyEventType, insertPriceRow_none,
            insertTrackingEvent_none]
        · intro v hv _ _ _
          obtain rfl : v0 = v := by simpa using hv
          rfl
        · intro hcon
          exact absurd ⟨rfl, hsp⟩ hcon
      | some ex =>
        simp only [findPriceRowByKey, Bool.decide_and] at hded
        refine ⟨{ st with
            listings := st.listings.map (fun x =>
              if x.id = l.id then
                { x with status := "Sold"
                         isActive := !(("Sold" : String) == "Sold" ||
                                       ("Sold" : String) == "Expired" ||
                                       ("Sold" : String) == "Cancelled")
                         lastSeenAt := now, updatedAt := now }
              else x)
            trackingEvents := st.trackingEvents ++
              [{ id := st.nextEventId, listingId := l.id, eventType := "StatusChange"
                 details := "Status changed to " ++ "Sold" }]
            nextEventId := st.nextEventId + 1
            writeCount := st.writeCount + 1 + 1 }, ?_, rfl, ?_, ?_⟩
        · simp [ListingService.update_status, hl, updateListingStatus_none, bindRes,
            ratTruthy_some_true hv00, ListingService.record_price, findPriceRowByKey,
            hded, insertTrackingEvent_none]
        · intro v hv _ _ hded2
          obtain rfl : v0 = v := by simpa using hv
          simp only [findPriceRowByKey, Bool.decide_and] at hded2
          rw [hded2] at hded
          simp at hded
        · intro hcon
          exact absurd ⟨rfl, hsp⟩ hcon

/-- Witness for C6's amended theorem: setting "Sold" at price 470000 and
date 7 on an existing listing with empty history flips it inactive and
appends the "Sold" entry. -/
theorem update_status_amended_witness :
    ∃ st2,
      ListingService.update_status none (fixtureDb [] [sampleListing 1 "M1"] [])
        "M1" "Sold" (some 470000) (some 7) 9 9 = (Except.ok true, st2) ∧
      st2.listings = (fixtureDb [] [sampleListing 1 "M1"] []).listings.map (fun x =>
        if x.id = 1 then
          { x with status := "Sold"
                   isActive := !(("Sold" : String) == "Sold" || ("Sold" : String) == "Expired" ||
                                 ("Sold" : String) == "Cancelled")
                   lastSeenAt := 9, updatedAt := 9 }
        else x) ∧
      st2.priceHistory = (fixtureDb [] [sampleListing 1 "M1"] []).priceHistory ++
        [{ id := 70, listingId := 1, price := 470000
           recordedDate := 7, eventType := "Sold" }] := by
  obtain ⟨st2, heq, hls, hsale, -⟩ :=
    (update_status_amended (fixtureDb [] [sampleListing 1 "M1"] []) "M1" "Sold"
      (some 470000) (some 7) 9 9).2 (sampleListing 1 "M1") rfl
  exact ⟨st2, heq, hls, hsale 470000 rfl (by decide) rfl rfl⟩

/-! ## C4: price recording on upsert of an existing listing -/

theorem overwriteListingRow_id (x : ListingRow) (bid : Option Nat)
    (data : ListingData) (now : Nat) :
    (overwriteListingRow x bid data now).id = x.id := rfl

theorem overwriteListingRow_mls (x : ListingRow) (bid : Option Nat)
    (data : ListingData) (now : Nat) :
    (overwriteListingRow x bid data now).mlsNumber = x.mlsNumber := rfl

theorem currentPriceQuery_congr {st st2 : Db}
    (h : st2.priceHistory = st.priceHistory) (lid : Nat) :
    currentPriceQuery st2 lid = currentPriceQuery st lid := by
  unfold currentPriceQuery listingHistory
  rw [h]

theorem classifyEventType_congr {st st2 : Db} (h : st2.priceHistory = st.priceHistory)
    (lid : Nat) (p : Rat) (hint : String) :
    ListingService.classifyEventType st2 lid p hint =
      ListingService.classifyEventType st lid p hint := by
  unfold ListingService.classifyEventType
  rw [currentPriceQuery_congr h]

theorem findPriceRowByKey_congr {st st2 : Db}
    (h : st2.priceHistory = st.priceHistory) (lid d : Nat) (p : Rat) :
    findPriceRowByKey st2 lid d p = findPriceRowByKey st lid d p := by
  unfold findPriceRowByKey
  rw [h]

theorem findListingByMls_congr {st st2 : Db}
    (h : st2.listings = st.listings) (mls : String) :
    findListingByMls st2 mls = findListingByMls st mls := by
  unfold findListingByMls
  rw [h]

theorem find?_map_mls (f : ListingRow → ListingRow)
    (hf : ∀ x, (f x).mlsNumber = x.mlsNumber) (l : List ListingRow) (mls : String) :
    (l.map f).find? (fun x => x.mlsNumber == mls) =
      (l.find? (fun x => x.mlsNumber == mls)).map f := by
  induction l with
  | nil => rfl
  | cons x xs ih =>
    cases hx : (x.mlsNumber == mls) with
    | true =>
      have h1 : List.find? (fun y => y.mlsNumber == mls) (f x :: List.map f xs) =
          some (f x) :=
        List.find?_cons_of_pos _ (by rw [hf]; exact hx)
      have h2 : List.find? (fun y => y.mlsNumber == mls) (x :: xs) = some x :=
        List.find?_cons_of_pos _ hx
      rw [List.map_cons, h1, h2]
      rfl
    | false =>
      have h1 : List.find? (fun y => y.mlsNumber == mls) (f x :: List.map f xs) =
          List.find? (fun y => y.mlsNumber == mls) (List.map f xs) :=
        List.find?_cons_of_neg _ (by rw [hf]; simp [hx])
      have h2 : List.find? (fun y => y.mlsNumber == mls) (x :: xs) =
          List.find? (fun y => y.mlsNumber == mls) xs :=
        List.find?_cons_of_neg _ (by simp [hx])
      rw [List.map_cons, h1, h2, ih]

theorem mostRecentEntry_result (l : List PriceRow) :
    ∀ acc : Option PriceRow,
      l.foldl
        (fun acc r =>
          match acc with
          | none => some r
          | some a => if a.recordedDate < r.recordedDate then some r else acc)
        acc = acc ∨
      ∃ x ∈ l,
        l.foldl
          (fun acc r =>
            match acc with
            | none => some r
            | some a => if a.recordedDate < r.recordedDate then some r else acc)
          acc = some x := by
  induction l with
  | nil => intro acc; exact Or.inl rfl
  | cons y ys ih =>
    intro acc
    rw [List.foldl_cons]
    rcases ih (match acc with
      | none => some y
      | some a => if a.recordedDate < y.recordedDate then some y else acc) with h | ⟨x, hx, h⟩
    · rw [h]
      cases acc with
      | none => exact Or.inr ⟨y, List.mem_cons_self _ _, rfl⟩
      | some a =>
        by_cases hlt : a.recordedDate < y.recordedDate
        · exact Or.inr ⟨y, List.mem_cons_self _ _, by simp [hlt]⟩
        · exact Or.inl (by simp [hlt])
    · exact Or.inr ⟨x, List.mem_cons_of_mem _ hx, h⟩

theorem mostRecentEntry_append_new (l : List PriceRow) (r : PriceRow)
    (h : ∀ x ∈ l, x.recordedDate < r.recordedDate) :
    mostRecentEntry (l ++ [r]) = some r := by
  unfold mostRecentEntry
  rw [List.foldl_append, List.foldl_cons, List.foldl_nil]
  rcases mostRecentEntry_result l none with hf | ⟨x, hx, hf⟩
  · rw [hf]
  · rw [hf]
    simp [h x hx]

theorem updateListingFull_spec (st : Db) (lid : Nat) (bid : Option Nat)
    (data : ListingData) (now : Nat) :
    ∃ stU,
      updateListingFull none st lid bid data now = (Except.ok 1, stU) ∧
      stU.listings = st.listings.map (fun x =>
        if x.id = lid then overwriteListingRow x bid data now else x) ∧
      stU.priceHistory = st.priceHistory ∧ stU.buildings = st.buildings ∧
      stU.neighborhoods = st.neighborhoods ∧ stU.trackingEvents = st.trackingEvents ∧
      stU.sales = st.sales ∧ stU.nextPriceId = st.nextPriceId ∧
      stU.nextEventId = st.nextEventId ∧ stU.nextListingId = st.nextListingId ∧
      stU.nextSaleId = st.nextSaleId ∧ stU.nextBuildingId = st.nextBuildingId :=
  ⟨_, updateListingFull_none st lid bid data now, rfl, rfl, rfl, rfl, rfl, rfl, rfl,
    rfl, rfl, rfl, rfl⟩

theorem record_price_spec (st : Db) (lid : Nat) (p : Rat) (pd : Option Nat)
    (hint : String) (today : Nat) :
    ∃ pid stP,
      ListingService.record_price none st lid p pd hint today = (Except.ok pid, stP) ∧
      stP.listings = st.listings ∧ stP.buildings = st.buildings ∧
      stP.neighborhoods = st.neighborhoods ∧ stP.trackingEvents = st.trackingEvents ∧
      stP.sales = st.sales ∧ stP.nextEventId = st.nextEventId ∧
      stP.nextListingId = st.nextListingId ∧ stP.nextSaleId = st.nextSaleId ∧
      stP.nextBuildingId = st.nextBuildingId ∧
      (findPriceRowByKey st lid (pd.getD today) p = none →
        stP.priceHistory = st.priceHistory ++
          [{ id := st.nextPriceId, listingId := lid, price := p
             recordedDate := pd.getD today
             eventType := ListingService.classifyEventType st lid p hint }]) ∧
      (∀ ex, findPriceRowByKey st lid (pd.getD today) p = some ex →
        stP.priceHistory = st.priceHistory ∧ pid = ex.id) := by
  cases h : findPriceRowByKey st lid (pd.getD today) p with
  | none =>
    refine ⟨_, _, record_price_miss_any st lid p pd hint today h, rfl, rfl, rfl, rfl,
      rfl, rfl, rfl, rfl, rfl, fun _ => rfl, ?_⟩
    intro ex hex
    simp at hex
  | some ex =>
    refine ⟨_, _, record_price_hit_any st lid p pd hint today h, rfl, rfl, rfl, rfl,
      rfl, rfl, rfl, rfl, rfl, ?_, ?_⟩
    · intro hnone
      simp at hnone
    · intro ex2 hex2
      obtain rfl : ex = ex2 := by simpa using hex2
      exact ⟨rfl, rfl⟩

theorem insertTrackingEvent_spec (st : Db) (lid : Nat) (k details : String) :
    ∃ stE,
      insertTrackingEvent none st lid k details = (Except.ok st.nextEventId, stE) ∧
      stE.listings = st.listings ∧ stE.priceHistory = st.priceHistory ∧
      stE.buildings = st.buildings ∧ stE.neighborhoods = st.neighborhoods ∧
      stE.sales = st.sales ∧ stE.nextPriceId = st.nextPriceId ∧
      stE.nextListingId = st.nextListingId ∧ stE.nextSaleId = st.nextSaleId ∧
      stE.nextBuildingId = st.nextBuildingId :=
  ⟨_, insertTrackingEvent_none st lid k details, rfl, rfl, rfl, rfl, rfl, rfl, rfl,
    rfl, rfl⟩

/-- The update path of the upsert with a falsy price (absent or the zero
decimal): `priceRecorded = false` and the price history is untouched. -/
theorem upsert_update_falsy (st : Db) (data : ListingData) (mls : String)
    (l : ListingRow) (now today : Nat)
    (hm : data.mls_number = some mls) (hmne : mls ≠ "")
    (hfind : findListingByMls st mls = some l)
    (hp : ratTruthy data.price = false) :
    ∃ st2 bid,
      ListingService.create_or_update_listing none st data now today =
        (Except.ok
          { success := true, listing_id := l.id, mls_number := mls
            is_new := false, price_recorded := false
            message := "Listing updated" }, st2) ∧
      st2.priceHistory = st.priceHistory ∧
      st2.listings = st.listings.map (fun x =>
        if x.id = l.id then overwriteListingRow x bid data now else x) := by
  obtain ⟨bid, stB, hB, hBn, hBl, hBp, hBt, hBs, hBnl, hBnp, hBne, hBns⟩ :=
    gocb_ok st data.building_name data.address data.neighborhood
  obtain ⟨stU, hU, hUl, hUp, hUb, hUn, hUt, hUs, hUnp, hUne, hUnl, hUns, hUnb⟩ :=
    updateListingFull_spec stB l.id bid data now
  obtain ⟨stE, hE, hEl, hEp, hEb, hEn, hEs, hEnp, hEnl, hEns, hEnb⟩ :=
    insertTrackingEvent_spec stU l.id "Updated"
      ("Updated from " ++ data.source_platform.getD "None")
  refine ⟨stE, bid, ?_, ?_, ?_⟩
  · simp [ListingService.create_or_update_listing, hm, strTruthy_some_true hmne,
      hfind, hB, bindRes, hU, hp, hE]
  · rw [hEp, hUp, hBp]
  · rw [hEl, hUl, hBl]

/-- Full characterization of the update path of the upsert with a truthy
price: the result flags, the field overwrite, and the price-history effect
(the ledger is invoked exactly when the price differs from the most recent
entry, and inserts exactly when no identical same-day row exists). -/
theorem upsert_update_path (st : Db) (data : ListingData) (mls : String)
    (l : ListingRow) (p : Rat) (now today : Nat)
    (hm : data.mls_number = some mls) (hmne : mls ≠ "")
    (hfind : findListingByMls st mls = some l)
    (hp : data.price = some p) (hp0 : p ≠ 0) :
    ∃ res st2 bid,
      ListingService.create_or_update_listing none st data now today =
        (Except.ok res, st2) ∧
      res.is_new = false ∧ res.listing_id = l.id ∧ res.success = true ∧
      (res.price_recorded = true ↔
        (currentPriceQuery st l.id).map (fun r => r.price) ≠ some p) ∧
      st2.listings = st.listings.map (fun x =>
        if x.id = l.id then overwriteListingRow x bid data now else x) ∧
      ((currentPriceQuery st l.id).map (fun r => r.price) = some p →
        st2.priceHistory = st.priceHistory) ∧
      ((currentPriceQuery st l.id).map (fun r => r.price) ≠ some p →
        (findPriceRowByKey st l.id today p = none →
          st2.priceHistory = st.priceHistory ++
            [{ id := st.nextPriceId, listingId := l.id, price := p
               recordedDate := today
               eventType := ListingService.classifyEventType st l.id p "Price Change" }]) ∧
        (∀ ex, findPriceRowByKey st l.id today p = some ex →
          st2.priceHistory = st.priceHistory)) := by
  obtain ⟨bid, stB, hB, hBn, hBl, hBp, hBt, hBs, hBnl, hBnp, hBne, hBns⟩ :=
    gocb_ok st data.building_name data.address data.neighborhood
  obtain ⟨stU, hU, hUl, hUp, hUb, hUn, hUt, hUs, hUnp, hUne, hUnl, hUns, hUnb⟩ :=
    updateListingFull_spec stB l.id bid data now
  have hUpSt : stU.priceHistory = st.priceHistory := hUp.trans hBp
  have hUnpSt : stU.nextPriceId = st.nextPriceId := hUnp.trans hBnp
  have hUlSt : stU.listings = st.listings.map (fun x =>
      if x.id = l.id then overwriteListingRow x bid data now else x) := by
    rw [hUl, hBl]
  have hq : currentPriceQuery stU l.id = currentPriceQuery st l.id :=
    currentPriceQuery_congr hUpSt l.id
  cases hcur : currentPriceQuery st l.id with
  | some cur =>
    by_cases hpe : cur.price = p
    · obtain ⟨stE, hE, hEl, hEp, hEb, hEn, hEs, hEnp, hEnl, hEns, hEnb⟩ :=
        insertTrackingEvent_spec stU l.id "Updated"
          ("Updated from " ++ data.source_platform.getD "None")
      refine ⟨{ success := true, listing_id := l.id, mls_number := mls
                is_new := false, price_recorded := false
                message := "Listing updated" }, stE, bid, ?_, rfl, rfl, rfl, ?_, ?_,
        ?_, ?_⟩
      · simp [ListingService.create_or_update_listing, hm, strTruthy_some_true hmne,
          hfind, hB, bindRes, hU, hp, ratTruthy_some_true hp0, hq, hcur, hpe, hE]
      · simp [hcur, hpe]
      · rw [hEl, hUlSt]
      · intro _
        rw [hEp, hUpSt]
      · intro hd
        simp at hd
        exact absurd hpe hd
    · obtain ⟨pid, stP, hR, hPl, hPb, hPn, hPt, hPs, hPne, hPnl, hPns, hPnb,
        hRnone, hRsome⟩ := record_price_spec stU l.id p none "Price Change" today
      have hprobe : findPriceRowByKey stU l.id (Option.getD none today) p =
          findPriceRowByKey st l.id today p := by
        rw [findPriceRowByKey_congr hUpSt]
        simp only [Option.getD_none]
      obtain ⟨stE, hE, hEl, hEp, hEb, hEn, hEs, hEnp, hEnl, hEns, hEnb⟩ :=
        insertTrackingEvent_spec stP l.id "Updated"
          ("Updated from " ++ data.source_platform.getD "None")
      refine ⟨{ success := true, listing_id := l.id, mls_number := mls
                is_new := false, price_recorded := true
                message := "Listing updated" }, stE, bid, ?_, rfl, rfl, rfl, ?_, ?_,
        ?_, ?_⟩
      · simp [ListingService.create_or_update_listing, hm, strTruthy_some_true hmne,
          hfind, hB, bindRes, hU, hp, ratTruthy_some_true hp0, hq, hcur, hpe, hR, hE]
      · simp [hcur]
        intro h
        exact absurd h hpe
      · rw [hEl, hPl, hUlSt]
      · intro hsame
        simp at hsame
        exact absurd hsame hpe
      · intro _
        constructor
        · intro hnone
          have hhist := hRnone (hprobe.trans hnone)
          rw [hEp, hhist, hUpSt, hUnpSt, classifyEventType_congr hUpSt]
          simp only [Option.getD_none]
        · intro ex hex
          rw [hEp, (hRsome ex (hprobe.trans hex)).1, hUpSt]
  | none =>
    obtain ⟨pid, stP, hR, hPl, hPb, hPn, hPt, hPs, hPne, hPnl, hPns, hPnb,
      hRnone, hRsome⟩ := record_price_spec stU l.id p none "Price Change" today
    have hprobe : findPriceRowByKey stU l.id (Option.getD none today) p =
        findPriceRowByKey st l.id today p := by
      rw [findPriceRowByKey_congr hUpSt]
      simp only [Option.getD_none]
    obtain ⟨stE, hE, hEl, hEp, hEb, hEn, hEs, hEnp, hEnl, hEns, hEnb⟩ :=
      insertTrackingEvent_spec stP l.id "Updated"
        ("Updated from " ++ data.source_platform.getD "None")
    refine ⟨{ success := true, listing_id := l.id, mls_number := mls
              is_new := false, price_recorded := true
              message := "Listing updated" }, stE, bid, ?_, rfl, rfl, rfl, ?_, ?_,
      ?_, ?_⟩
    · simp [ListingService.create_or_update_listing, hm, strTruthy_some_true hmne,
        hfind, hB, bindRes, hU, hp, ratTruthy_some_true hp0, hq, hcur, hR, hE]
    · simp [hcur]
    · rw [hEl, hPl, hUlSt]
    · intro hsame
      simp at hsame
    · intro _
      constructor
      · intro hnone
        have hhist := hRnone (hprobe.trans hnone)
        rw [hEp, hhist, hUpSt, hUnpSt, classifyEventType_congr hUpSt]
        simp only [Option.getD_none]
      · intro ex hex
        rw [hEp, (hRsome ex (hprobe.trans hex)).1, hUpSt]

/-- C4 counterexample: an existing listing whose most recent price is 100,
upserted with `price = 0` — present and different from 100 — yields
`priceRecorded = false` and writes no price-history entry, because the code
guards the ledger call with Python truthiness (`if price:`) and the zero
decimal is falsy. -/
theorem upsert_zero_price_counterexample :
    (ListingService.create_or_update_listing none
      (fixtureDb [] [sampleListing 1 "M1"]
        [{ id := 2, listingId := 1, price := 100, recordedDate := 1
           eventType := "Initial" }])
      { mls_number := some "M1", price := some 0 } 9 9).1 =
      Except.ok { success := true, listing_id := 1, mls_number := "M1"
                  is_new := false, price_recorded := false
                  message := "Listing updated" } ∧
    (ListingService.create_or_update_listing none
      (fixtureDb [] [sampleListing 1 "M1"]
        [{ id := 2, listingId := 1, price := 100, recordedDate := 1
           eventType := "Initial" }])
      { mls_number := some "M1", price := some 0 } 9 9).2.priceHistory =
      [{ id := 2, listingId := 1, price := 100, recordedDate := 1
         eventType := "Initial" }] ∧
    (0 : Rat) ≠ 100 :=
  ⟨rfl, rfl, by decide⟩

/-- C4 amended: on upsert of an existing MLS number, `priceRecorded = true`
exactly when `record.price` is present, NONZERO, and differs from the
listing's most recent price-history entry (no prior entry counting as
different); whenever it is false (price absent, zero, or unchanged) the
price history is untouched; when it is true, the deduplicating ledger is
invoked with hint "Price Change" and today's date, appending a row carrying
that classified kind unless an identical same-day row already exists (in
which case nothing is written); and upserting the same MLS number twice
with an unchanged nonzero price — when all prior entries are dated before
today — yields `priceRecorded = false` on the second call and leaves the
price history unchanged. -/
theorem upsert_priceRecorded_amended (st : Db) (data : ListingData) (mls : String)
    (l : ListingRow) (now today now2 : Nat)
    (hm : data.mls_number = some mls) (hmne : mls ≠ "")
    (hfind : findListingByMls st mls = some l) :
    ∃ res st2,
      ListingService.create_or_update_listing none st data now today =
        (Except.ok res, st2) ∧
      res.is_new = false ∧
      (res.price_recorded = true ↔
        ∃ p, data.price = some p ∧ p ≠ 0 ∧
          (currentPriceQuery st l.id).map (fun r => r.price) ≠ some p) ∧
      (res.price_recorded = false → st2.priceHistory = st.priceHistory) ∧
      (∀ p, data.price = some p → p ≠ 0 →
        (currentPriceQuery st l.id).map (fun r => r.price) ≠ some p →
        (findPriceRowByKey st l.id today p = none →
          st2.priceHistory = st.priceHistory ++
            [{ id := st.nextPriceId, listingId := l.id, price := p
               recordedDate := today
               eventType := ListingService.classifyEventType st l.id p "Price Change" }]) ∧
        (∀ ex, findPriceRowByKey st l.id today p = some ex →
          st2.priceHistory = st.priceHistory)) ∧
      (∀ p, data.price = some p → p ≠ 0 →
        (∀ r ∈ st.priceHistory, r.listingId = l.id → r.recordedDate < today) →
        ∃ res2 st3,
          ListingService.create_or_update_listing none st2 data now2 today =
            (Except.ok res2, st3) ∧
          res2.price_recorded = false ∧
          st3.priceHistory = st2.priceHistory) := by
  cases hpt : data.price with
  | none =>
    have hf : ratTruthy data.price = false := by rw [hpt]; rfl
    obtain ⟨st2, bid, heq, hpH, hls⟩ :=
      upsert_update_falsy st data mls l now today hm hmne hfind hf
    refine ⟨_, st2, heq, rfl, ?_, fun _ => hpH, ?_, ?_⟩
    · simp [hpt]
    · intro p hp hp0 hpd
      simp at hp
    · intro p hp hp0 hdates
      simp at hp
  | some p =>
    by_cases hp0 : p = 0
    · subst hp0
      have hf : ratTruthy data.price = false := by rw [hpt]; rfl
      obtain ⟨st2, bid, heq, hpH, hls⟩ :=
        upsert_update_falsy st data mls l now today hm hmne hfind hf
      refine ⟨_, st2, heq, rfl, ?_, fun _ => hpH, ?_, ?_⟩
      · simp [hpt]
      · intro q hq hq0 hqd
        obtain rfl : (0 : Rat) = q := by simpa using hq
        exact absurd rfl hq0
      · intro q hq hq0 hdates
        obtain rfl : (0 : Rat) = q := by simpa using hq
        exact absurd rfl hq0
    · obtain ⟨res, st2, bid, heq, hnew, hid, hsucc, hiff, hls, hsame, hdiff⟩ :=
        upsert_update_path st data mls l p now today hm hmne hfind hpt hp0
      refine ⟨res, st2, heq, hnew, ?_, ?_, ?_, ?_⟩
      · constructor
        · intro h
          exact ⟨p, rfl, hp0, hiff.mp h⟩
        · rintro ⟨q, hq, hq0, hqd⟩
          obtain rfl : p = q := by simpa using hq
          exact hiff.mpr hqd
      · intro hf
        have hnn : ¬ (currentPriceQuery st l.id).map (fun r => r.price) ≠ some p := by
          intro hd
          have hcontra := hiff.mpr hd
          rw [hf] at hcontra
          exact absurd hcontra (by decide)
        exact hsame (not_not.mp hnn)
      · intro q hq hq0 hqd
        obtain rfl : p = q := by simpa using hq
        exact hdiff hqd
      · intro q hq hq0 hdates
        obtain rfl : p = q := by simpa using hq
        have hmlspres : ∀ x : ListingRow,
            ((fun x => if x.id = l.id then overwriteListingRow x bid data now else x) x).mlsNumber =
              x.mlsNumber := by
          intro x
          by_cases hxx : x.id = l.id
          · simp [hxx, overwriteListingRow_mls]
          · simp [hxx]
        have hfind2 : findListingByMls st2 mls = some (overwriteListingRow l bid data now) := by
          unfold findListingByMls at hfind ⊢
          rw [hls, find?_map_mls _ hmlspres, hfind]
          simp
        have hkey : (currentPriceQuery st2 l.id).map (fun r => r.price) = some p := by
          by_cases hd : (currentPriceQuery st l.id).map (fun r => r.price) = some p
          · rw [currentPriceQuery_congr (hsame hd) l.id]
            exact hd
          · have hprobe0 : findPriceRowByKey st l.id today p = none := by
              unfold findPriceRowByKey
              rw [List.find?_eq_none]
              intro r hr hcontra
              simp only [decide_eq_true_eq] at hcontra
              obtain ⟨h1, h2, h3⟩ := hcontra
              exact absurd (h2 ▸ hdates r hr h1) (lt_irrefl today)
            obtain ⟨k, hph⟩ : ∃ k, st2.priceHistory = st.priceHistory ++
                [{ id := st.nextPriceId, listingId := l.id, price := p
                   recordedDate := today, eventType := k }] :=
              ⟨_, (hdiff hd).1 hprobe0⟩
            have hq2 : currentPriceQuery st2 l.id =
                some { id := st.nextPriceId, listingId := l.id, price := p
                       recordedDate := today, eventType := k } := by
              unfold currentPriceQuery listingHistory
              rw [hph, List.filter_append]
              rw [show List.filter (fun r => r.listingId == l.id)
                  [({ id := st.nextPriceId, listingId := l.id, price := p
                      recordedDate := today, eventType := k } : PriceRow)] =
                  [{ id := st.nextPriceId, listingId := l.id, price := p
                     recordedDate := today, eventType := k }] from by simp]
              apply mostRecentEntry_append_new
              intro x hx
              have hx2 := List.mem_filter.mp hx
              exact hdates x hx2.1 (by simpa using hx2.2)
            rw [hq2]
            rfl
        obtain ⟨res2, st3, bid2, heq2, hnew2, hid2, hsucc2, hiff2, hls2, hsame2, hdiff2⟩ :=
          upsert_update_path st2 data mls (overwriteListingRow l bid data now) p now2 today
            hm hmne hfind2 hpt hp0
        rw [overwriteListingRow_id] at hiff2 hsame2
        refine ⟨res2, st3, heq2, ?_, hsame2 hkey⟩
        cases hb : res2.price_recorded with
        | false => rfl
        | true => exact absurd hkey (hiff2.mp hb)

/-- Witness for C4's amended theorem: an existing listing (id 1) whose only
price-history entry is (price 100, date 1), upserted at today = 5 with the
record price 200. -/
theorem upsert_priceRecorded_amended_witness :
    ∃ res st2,
      ListingService.create_or_update_listing none
        (fixtureDb [] [sampleListing 1 "M1"]
          [{ id := 2, listingId := 1, price := 100, recordedDate := 1
             eventType := "Initial" }])
        { mls_number := some "M1", price := some 200 } 3 5 =
        (Except.ok res, st2) ∧
      res.is_new = false ∧
      (res.price_recorded = true ↔
        ∃ p, (some (200 : Rat) : Option Rat) = some p ∧ p ≠ 0 ∧
          (currentPriceQuery (fixtureDb [] [sampleListing 1 "M1"]
            [{ id := 2, listingId := 1, price := 100, recordedDate := 1
               eventType := "Initial" }]) 1).map (fun r => r.price) ≠ some p) ∧
      (res.price_recorded = false →
        st2.priceHistory = (fixtureDb [] [sampleListing 1 "M1"]
          [{ id := 2, listingId := 1, price := 100, recordedDate := 1
             eventType := "Initial" }]).priceHistory) ∧
      (∀ p, (some (200 : Rat) : Option Rat) = some p → p ≠ 0 →
        (currentPriceQuery (fixtureDb [] [sampleListing 1 "M1"]
          [{ id := 2, listingId := 1, price := 100, recordedDate := 1
             eventType := "Initial" }]) 1).map (fun r => r.price) ≠ some p →
        (findPriceRowByKey (fixtureDb [] [sampleListing 1 "M1"]
          [{ id := 2, listingId := 1, price := 100, recordedDate := 1
             eventType := "Initial" }]) 1 5 p = none →
          st2.priceHistory = (fixtureDb [] [sampleListing 1 "M1"]
            [{ id := 2, listingId := 1, price := 100, recordedDate := 1
               eventType := "Initial" }]).priceHistory ++
            [{ id := 70, listingId := 1, price := p
               recordedDate := 5
               eventType := ListingService.classifyEventType
                 (fixtureDb [] [sampleListing 1 "M1"]
                   [{ id := 2, listingId := 1, price := 100, recordedDate := 1
                      eventType := "Initial" }]) 1 p "Price Change" }]) ∧
        (∀ ex, findPriceRowByKey (fixtureDb [] [sampleListing 1 "M1"]
            [{ id := 2, listingId := 1, price := 100, recordedDate := 1
               eventType := "Initial" }]) 1 5 p = some ex →
          st2.priceHistory = (fixtureDb [] [sampleListing 1 "M1"]
            [{ id := 2, listingId := 1, price := 100, recordedDate := 1
               eventType := "Initial" }]).priceHistory)) ∧
      (∀ p, (some (200 : Rat) : Option Rat) = some p → p ≠ 0 →
        (∀ r ∈ (fixtureDb [] [sampleListing 1 "M1"]
            [{ id := 2, listingId := 1, price := 100, recordedDate := 1
               eventType := "Initial" }]).priceHistory,
          r.listingId = 1 → r.recordedDate < 5) →
        ∃ res2 st3,
          ListingService.create_or_update_listing none st2
            { mls_number := some "M1", price := some 200 } 7 5 =
            (Except.ok res2, st3) ∧
          res2.price_recorded = false ∧
          st3.priceHistory = st2.priceHistory) :=
  upsert_priceRecorded_amended
    (fixtureDb [] [sampleListing 1 "M1"]
      [{ id := 2, listingId := 1, price := 100, recordedDate := 1
         eventType := "Initial" }])
    { mls_number := some "M1", price := some 200 } "M1" (sampleListing 1 "M1")
    3 5 7 rfl (by decide) rfl

/-! ## C1: per-statement commits of the upsert -/

theorem insertBuilding_fail (failAt : Option Nat) (st : Db)
    (h : failAt = some st.writeCount) (name address : String)
    (nid : Option Nat) (city : String) :
    insertBuilding failAt st name address nid city =
      (Except.error "database error", { st with writeCount := st.writeCount + 1 }) := by
  unfold insertBuilding dbTick
  rw [if_pos h]

theorem insertListing_fail (failAt : Option Nat) (st : Db)
    (h : failAt = some st.writeCount) (mls : String) (bid : Option Nat)
    (data : ListingData) (now : Nat) :
    insertListing failAt st mls bid data now =
      (Except.error "database error", { st with writeCount := st.writeCount + 1 }) := by
  unfold insertListing dbTick
  rw [if_pos h]

theorem insertPriceRow_fail (failAt : Option Nat) (st : Db)
    (h : failAt = some st.writeCount) (lid : Nat) (p : Rat) (d : Nat) (k : String) :
    insertPriceRow failAt st lid p d k =
      (Except.error "database error", { st with writeCount := st.writeCount + 1 }) := by
  unfold insertPriceRow dbTick
  rw [if_pos h]

theorem insertTrackingEvent_fail (failAt : Option Nat) (st : Db)
    (h : failAt = some st.writeCount) (lid : Nat) (k details : String) :
    insertTrackingEvent failAt st lid k details =
      (Except.error "database error", { st with writeCount := st.writeCount + 1 }) := by
  unfold insertTrackingEvent dbTick
  rw [if_pos h]

theorem updateListingFull_fail (failAt : Option Nat) (st : Db)
    (h : failAt = some st.writeCount) (lid : Nat) (bid : Option Nat)
    (data : ListingData) (now : Nat) :
    updateListingFull failAt st lid bid data now =
      (Except.error "database error", { st with writeCount := st.writeCount + 1 }) := by
  unfold updateListingFull dbTick
  rw [if_pos h]

theorem updateListingFull_at (failAt : Option Nat) (st : Db)
    (h : failAt ≠ some st.writeCount) (lid : Nat) (bid : Option Nat)
    (data : ListingData) (now : Nat) :
    updateListingFull failAt st lid bid data now =
      (Except.ok 1,
       { st with
          listings := st.listings.map (fun l =>
            if l.id = lid then overwriteListingRow l bid data now else l)
          writeCount := st.writeCount + 1 }) := by
  unfold updateListingFull
  rw [dbTick_at failAt st h]

theorem insertBuilding_fa (failAt : Option Nat) (st : Db)
    (h : failAt ≠ some st.writeCount) (name address : String)
    (nid : Option Nat) (city : String) :
    ∃ stB,
      insertBuilding failAt st name address nid city = (Except.ok st.nextBuildingId, stB) ∧
      stB.buildings = st.buildings ++
        [{ id := st.nextBuildingId, name := name, address := address
           neighborhoodId := nid, city := city }] ∧
      stB.listings = st.listings ∧ stB.priceHistory = st.priceHistory ∧
      stB.trackingEvents = st.trackingEvents ∧ stB.nextListingId = st.nextListingId ∧
      stB.nextPriceId = st.nextPriceId ∧ stB.nextEventId = st.nextEventId ∧
      stB.writeCount = st.writeCount + 1 :=
  ⟨_, insertBuilding_at failAt st h name address nid city, rfl, rfl, rfl, rfl, rfl,
    rfl, rfl, rfl⟩

theorem insertListing_fa (failAt : Option Nat) (st : Db)
    (h : failAt ≠ some st.writeCount) (mls : String) (bid : Option Nat)
    (data : ListingData) (now : Nat) :
    ∃ stL lrow,
      insertListing failAt st mls bid data now = (Except.ok st.nextListingId, stL) ∧
      stL.listings = st.listings ++ [lrow] ∧ lrow.mlsNumber = mls ∧
      stL.buildings = st.buildings ∧ stL.priceHistory = st.priceHistory ∧
      stL.trackingEvents = st.trackingEvents ∧ stL.nextPriceId = st.nextPriceId ∧
      stL.nextEventId = st.nextEventId ∧ stL.nextBuildingId = st.nextBuildingId ∧
      stL.writeCount = st.writeCount + 1 :=
  ⟨_, _, insertListing_at failAt st h mls bid data now, rfl, rfl, rfl, rfl, rfl, rfl,
    rfl, rfl, rfl⟩

theorem insertPriceRow_fa (failAt : Option Nat) (st : Db)
    (h : failAt ≠ some st.writeCount) (lid : Nat) (p : Rat) (d : Nat) (k : String) :
    ∃ stP,
      insertPriceRow failAt st lid p d k = (Except.ok st.nextPriceId, stP) ∧
      stP.priceHistory = st.priceHistory ++
        [{ id := st.nextPriceId, listingId := lid, price := p
           recordedDate := d, eventType := k }] ∧
      stP.buildings = st.buildings ∧ stP.listings = st.listings ∧
      stP.trackingEvents = st.trackingEvents ∧ stP.nextEventId = st.nextEventId ∧
      stP.writeCount = st.writeCount + 1 :=
  ⟨_, insertPriceRow_at failAt st h lid p d k, rfl, rfl, rfl, rfl, rfl, rfl⟩

theorem updateListingFull_fa (failAt : Option Nat) (st : Db)
    (h : failAt ≠ some st.writeCount) (lid : Nat) (bid : Option Nat)
    (data : ListingData) (now : Nat) :
    ∃ stU,
      updateListingFull failAt st lid bid data now = (Except.ok 1, stU) ∧
      stU.listings = st.listings.map (fun x =>
        if x.id = lid then overwriteListingRow x bid data now else x) ∧
      stU.buildings = st.buildings ∧ stU.priceHistory = st.priceHistory ∧
      stU.trackingEvents = st.trackingEvents ∧ stU.nextPriceId = st.nextPriceId ∧
      stU.nextEventId = st.nextEventId ∧ stU.writeCount = st.writeCount + 1 :=
  ⟨_, updateListingFull_at failAt st h lid bid data now, rfl, rfl, rfl, rfl, rfl, rfl,
    rfl⟩

theorem insertBuilding_fail_spec (failAt : Option Nat) (st : Db)
    (h : failAt = some st.writeCount) (name address : String)
    (nid : Option Nat) (city : String) :
    ∃ stF,
      insertBuilding failAt st name address nid city =
        (Except.error "database error", stF) ∧
      stF.buildings = st.buildings ∧ stF.listings = st.listings ∧
      stF.priceHistory = st.priceHistory ∧ stF.trackingEvents = st.trackingEvents :=
  ⟨_, insertBuilding_fail failAt st h name address nid city, rfl, rfl, rfl, rfl⟩

theorem insertListing_fail_spec (failAt : Option Nat) (st : Db)
    (h : failAt = some st.writeCount) (mls : String) (bid : Option Nat)
    (data : ListingData) (now : Nat) :
    ∃ stF,
      insertListing failAt st mls bid data now =
        (Except.error "database error", stF) ∧
      stF.buildings = st.buildings ∧ stF.listings = st.listings ∧
      stF.priceHistory = st.priceHistory ∧ stF.trackingEvents = st.trackingEvents :=
  ⟨_, insertListing_fail failAt st h mls bid data now, rfl, rfl, rfl, rfl⟩

theorem insertPriceRow_fail_spec (failAt : Option Nat) (st : Db)
    (h : failAt = some st.writeCount) (lid : Nat) (p : Rat) (d : Nat) (k : String) :
    ∃ stF,
      insertPriceRow failAt st lid p d k =
        (Except.error "database error", stF) ∧
      stF.buildings = st.buildings ∧ stF.listings = st.listings ∧
      stF.priceHistory = st.priceHistory ∧ stF.trackingEvents = st.trackingEvents :=
  ⟨_, insertPriceRow_fail failAt st h lid p d k, rfl, rfl, rfl, rfl⟩

theorem insertTrackingEvent_fail_spec (failAt : Option Nat) (st : Db)
    (h : failAt = some st.writeCount) (lid : Nat) (k details : String) :
    ∃ stF,
      insertTrackingEvent failAt st lid k details =
        (Except.error "database error", stF) ∧
      stF.buildings = st.buildings ∧ stF.listings = st.listings ∧
      stF.priceHistory = st.priceHistory ∧ stF.trackingEvents = st.trackingEvents :=
  ⟨_, insertTrackingEvent_fail failAt st h lid k details, rfl, rfl, rfl, rfl⟩

theorem updateListingFull_fail_spec (failAt : Option Nat) (st : Db)
    (h : failAt = some st.writeCount) (lid : Nat) (bid : Option Nat)
    (data : ListingData) (now : Nat) :
    ∃ stF,
      updateListingFull failAt st lid bid data now =
        (Except.error "database error", stF) ∧
      stF.buildings = st.buildings ∧ stF.listings = st.listings ∧
      stF.priceHistory = st.priceHistory ∧ stF.trackingEvents = st.trackingEvents :=
  ⟨_, updateListingFull_fail failAt st h lid bid data now, rfl, rfl, rfl, rfl⟩

theorem gocb_blank_fa (failAt : Option Nat) (st : Db) :
    ListingService.get_or_create_building failAt st none none none =
      (Except.ok none, st) := rfl

theorem gocb_create_name_only (failAt : Option Nat) (st : Db) {bn : String}
    (hbne : bn ≠ "") (hbmiss : findBuildingByName st bn = none) :
    ListingService.get_or_create_building failAt st (some bn) none none =
      bindRes (insertBuilding failAt st bn bn none "Victoria")
        (fun bid st => (Except.ok (some bid), st)) := by
  unfold ListingService.get_or_create_building
  simp [strTruthy_some_true hbne, hbmiss, pyOrStr,
    show strTruthy (none : Option String) = false from rfl]

theorem record_price_miss_eq (failAt : Option Nat) (st : Db) (lid : Nat) (p : Rat)
    (pd : Option Nat) (hint : String) (today : Nat)
    (h : findPriceRowByKey st lid (pd.getD today) p = none) :
    ListingService.record_price failAt st lid p pd hint today =
      insertPriceRow failAt st lid p (pd.getD today)
        (ListingService.classifyEventType st lid p hint) := by
  unfold ListingService.record_price
  simp [h]

/-- C1 amended: writes are committed per statement with no enclosing
call-level transaction, so when any write statement of an upsert fails,
every write already performed in that same call remains committed and only
the failed statement and the steps after it are absent.  Stated for every
store state and for every write statement of both paths: on the
new-listing path (fresh MLS number, fresh building name, nonzero price —
four writes: building, listing, price history, tracking event), failure at
statement i leaves exactly the first i writes committed; on the update
path (existing MLS number, no building data, nonzero changed price — three
writes: listing update, price history, tracking event), likewise. -/
theorem upsert_per_statement_commit :
    (∀ (st : Db) (data : ListingData) (mls bn : String) (p : Rat) (ld : Option Nat)
      (now today : Nat),
      data.mls_number = some mls → data.building_name = some bn →
      data.address = none → data.neighborhood = none →
      data.price = some p → data.listing_date = ld →
      mls ≠ "" → bn ≠ "" → p ≠ 0 →
      findListingByMls st mls = none →
      findBuildingByName st bn = none →
      findPriceRowByKey st st.nextListingId (ld.getD today) p = none →
      ((∃ stF,
          ListingService.create_or_update_listing (some st.writeCount) st data now today =
            (Except.error "database error", stF) ∧
          stF.buildings = st.buildings ∧ stF.listings = st.listings ∧
          stF.priceHistory = st.priceHistory ∧ stF.trackingEvents = st.trackingEvents) ∧
       (∃ stF,
          ListingService.create_or_update_listing (some (st.writeCount + 1)) st data now today =
            (Except.error "database error", stF) ∧
          (∃ b, stF.buildings = st.buildings ++ [b]) ∧ stF.listings = st.listings ∧
          stF.priceHistory = st.priceHistory ∧ stF.trackingEvents = st.trackingEvents) ∧
       (∃ stF,
          ListingService.create_or_update_listing (some (st.writeCount + 2)) st data now today =
            (Except.error "database error", stF) ∧
          (∃ b, stF.buildings = st.buildings ++ [b]) ∧
          (∃ lr, stF.listings = st.listings ++ [lr] ∧ lr.mlsNumber = mls) ∧
          stF.priceHistory = st.priceHistory ∧ stF.trackingEvents = st.trackingEvents) ∧
       (∃ stF,
          ListingService.create_or_update_listing (some (st.writeCount + 3)) st data now today =
            (Except.error "database error", stF) ∧
          (∃ b, stF.buildings = st.buildings ++ [b]) ∧
          (∃ lr, stF.listings = st.listings ++ [lr] ∧ lr.mlsNumber = mls) ∧
          (∃ r, stF.priceHistory = st.priceHistory ++ [r] ∧ r.price = p ∧
            r.listingId = st.nextListingId ∧ r.eventType = "Initial") ∧
          stF.trackingEvents = st.trackingEvents))) ∧
    (∀ (st : Db) (data : ListingData) (mls : String) (p : Rat) (l : ListingRow)
      (now today : Nat),
      data.mls_number = some mls → data.building_name = none →
      data.address = none → data.neighborhood = none →
      data.price = some p →
      mls ≠ "" → p ≠ 0 →
      findListingByMls st mls = some l →
      (currentPriceQuery st l.id).map (fun r => r.price) ≠ some p →
      findPriceRowByKey st l.id today p = none →
      ((∃ stF,
          ListingService.create_or_update_listing (some st.writeCount) st data now today =
            (Except.error "database error", stF) ∧
          stF.listings = st.listings ∧ stF.priceHistory = st.priceHistory ∧
          stF.trackingEvents = st.trackingEvents ∧ stF.buildings = st.buildings) ∧
       (∃ stF,
          ListingService.create_or_update_listing (some (st.writeCount + 1)) st data now today =
            (Except.error "database error", stF) ∧
          stF.listings = st.listings.map (fun x =>
            if x.id = l.id then overwriteListingRow x none data now else x) ∧
          stF.priceHistory = st.priceHistory ∧
          stF.trackingEvents = st.trackingEvents ∧ stF.buildings = st.buildings) ∧
       (∃ stF,
          ListingService.create_or_update_listing (some (st.writeCount + 2)) st data now today =
            (Except.error "database error", stF) ∧
          stF.listings = st.listings.map (fun x =>
            if x.id = l.id then overwriteListingRow x none data now else x) ∧
          (∃ r, stF.priceHistory = st.priceHistory ++ [r] ∧ r.price = p ∧
            r.listingId = l.id) ∧
          stF.trackingEvents = st.trackingEvents ∧ stF.buildings = st.buildings))) := by
  constructor
  · intro st data mls bn p ld now today hm hbn had hnb hp hld hmne hbne hp0
      hfresh hbmiss hded
    refine ⟨?_, ?_, ?_, ?_⟩
    · obtain ⟨stF, hBeq, f1, f2, f3, f4⟩ :=
        insertBuilding_fail_spec (some st.writeCount) st rfl bn bn none "Victoria"
      refine ⟨stF, ?_, f1, f2, f3, f4⟩
      simp [ListingService.create_or_update_listing, hm, hbn, had, hnb,
        strTruthy_some_true hmne, hfresh,
        gocb_create_name_only (some st.writeCount) st hbne hbmiss, hBeq, bindRes]
    · obtain ⟨stB, hBeq, hBb, hBl, hBp, hBt, hBnl, hBnp, hBne, hBwc⟩ :=
        insertBuilding_fa (some (st.writeCount + 1)) st
          (by simp only [ne_eq, Option.some.injEq]; omega) bn bn none "Victoria"
      obtain ⟨stF, hLeq, g1, g2, g3, g4⟩ :=
        insertListing_fail_spec (some (st.writeCount + 1)) stB (by rw [hBwc]) mls
          (some st.nextBuildingId) data now
      refine ⟨stF, ?_, ⟨_, g1.trans hBb⟩, g2.trans hBl, g3.trans hBp, g4.trans hBt⟩
      simp [ListingService.create_or_update_listing, hm, hbn, had, hnb,
        strTruthy_some_true hmne, hfresh,
        gocb_create_name_only (some (st.writeCount + 1)) st hbne hbmiss, hBeq, hLeq,
        bindRes]
    · obtain ⟨stB, hBeq, hBb, hBl, hBp, hBt, hBnl, hBnp, hBne, hBwc⟩ :=
        insertBuilding_fa (some (st.writeCount + 2)) st
          (by simp only [ne_eq, Option.some.injEq]; omega) bn bn none "Victoria"
      obtain ⟨stL, lrow, hLeq, hLl, hLmls, hLb, hLp, hLt, hLnp, hLne, hLnb, hLwc⟩ :=
        insertListing_fa (some (st.writeCount + 2)) stB
          (by rw [hBwc]; simp only [ne_eq, Option.some.injEq]; omega) mls
          (some st.nextBuildingId) data now
      have hprobe : findPriceRowByKey stL stB.nextListingId (ld.getD today) p = none := by
        rw [findPriceRowByKey_congr (hLp.trans hBp), hBnl]
        exact hded
      have hrp := record_price_miss_eq (some (st.writeCount + 2)) stL stB.nextListingId
        p ld "Initial" today hprobe
      rw [classifyEventType_not_pc stL stB.nextListingId p
        (show ("Initial" : String) ≠ "Price Change" from by decide)] at hrp
      obtain ⟨stF, hPeq, f1, f2, f3, f4⟩ :=
        insertPriceRow_fail_spec (some (st.writeCount + 2)) stL (by rw [hLwc, hBwc])
          stB.nextListingId p (ld.getD today) "Initial"
      refine ⟨stF, ?_, ⟨_, (f1.trans hLb).trans hBb⟩,
        ⟨lrow, ((f2.trans hLl).trans (by rw [hBl])), hLmls⟩,
        (f3.trans hLp).trans hBp, (f4.trans hLt).trans hBt⟩
      simp [ListingService.create_or_update_listing, hm, hbn, had, hnb, hp, hld,
        strTruthy_some_true hmne, ratTruthy_some_true hp0, hfresh,
        gocb_create_name_only (some (st.writeCount + 2)) st hbne hbmiss, hBeq, hLeq,
        hrp, hPeq, bindRes]
    · obtain ⟨stB, hBeq, hBb, hBl, hBp, hBt, hBnl, hBnp, hBne, hBwc⟩ :=
        insertBuilding_fa (some (st.writeCount + 3)) st
          (by simp only [ne_eq, Option.some.injEq]; omega) bn bn none "Victoria"
      obtain ⟨stL, lrow, hLeq, hLl, hLmls, hLb, hLp, hLt, hLnp, hLne, hLnb, hLwc⟩ :=
        insertListing_fa (some (st.writeCount + 3)) stB
          (by rw [hBwc]; simp only [ne_eq, Option.some.injEq]; omega) mls
          (some st.nextBuildingId) data now
      have hprobe : findPriceRowByKey stL stB.nextListingId (ld.getD today) p = none := by
        rw [findPriceRowByKey_congr (hLp.trans hBp), hBnl]
        exact hded
      have hrp := record_price_miss_eq (some (st.writeCount + 3)) stL stB.nextListingId
        p ld "Initial" today hprobe
      rw [classifyEventType_not_pc stL stB.nextListingId p
        (show ("Initial" : String) ≠ "Price Change" from by decide)] at hrp
      obtain ⟨stP, hPeq, hPp, hPb, hPl, hPt, hPne, hPwc⟩ :=
        insertPriceRow_fa (some (st.writeCount + 3)) stL
          (by rw [hLwc, hBwc]; simp only [ne_eq, Option.some.injEq]; omega)
          stB.nextListingId p (ld.getD today) "Initial"
      obtain ⟨stF, hEeq, f1, f2, f3, f4⟩ :=
        insertTrackingEvent_fail_spec (some (st.writeCount + 3)) stP
          (by rw [hPwc, hLwc, hBwc]) stB.nextListingId "Discovered"
          ("Found on " ++ data.source_platform.getD "None")
      refine ⟨stF, ?_, ⟨_, ((f1.trans hPb).trans hLb).trans hBb⟩,
        ⟨lrow, ((f2.trans hPl).trans hLl).trans (by rw [hBl]), hLmls⟩,
        ⟨_, (f3.trans hPp).trans (by rw [hLp, hBp]), rfl, hBnl, rfl⟩,
        ((f4.trans hPt).trans hLt).trans hBt⟩
      simp [ListingService.create_or_update_listing, hm, hbn, had, hnb, hp, hld,
        strTruthy_some_true hmne, ratTruthy_some_true hp0, hfresh,
        gocb_create_name_only (some (st.writeCount + 3)) st hbne hbmiss, hBeq, hLeq,
        hrp, hPeq, hEeq, bindRes]
  · intro st data mls p l now today hm hbn had hnb hp hmne hp0 hfind hcur hded
    refine ⟨?_, ?_, ?_⟩
    · obtain ⟨stF, hUeq, f1, f2, f3, f4⟩ :=
        updateListingFull_fail_spec (some st.writeCount) st rfl l.id none data now
      refine ⟨stF, ?_, f2, f3, f4, f1⟩
      simp [ListingService.create_or_update_listing, hm, hbn, had, hnb,
        strTruthy_some_true hmne, hfind, gocb_blank_fa, hUeq, bindRes]
    · obtain ⟨stU, hUeq, hUl, hUb, hUp, hUt, hUnp, hUne, hUwc⟩ :=
        updateListingFull_fa (some (st.writeCount + 1)) st
          (by simp only [ne_eq, Option.some.injEq]; omega) l.id none data now
      have hqU : currentPriceQuery stU l.id = currentPriceQuery st l.id :=
        currentPriceQuery_congr hUp l.id
      have hprobe : findPriceRowByKey stU l.id (Option.getD none today) p = none := by
        rw [findPriceRowByKey_congr hUp]
        simp only [Option.getD_none]
        exact hded
      have hrp := record_price_miss_eq (some (st.writeCount + 1)) stU l.id p none
        "Price Change" today hprobe
      simp only [Option.getD_none] at hrp
      obtain ⟨stF, hPeq, f1, f2, f3, f4⟩ :=
        insertPriceRow_fail_spec (some (st.writeCount + 1)) stU (by rw [hUwc]) l.id p
          today (ListingService.classifyEventType stU l.id p "Price Change")
      refine ⟨stF, ?_, f2.trans hUl, f3.trans hUp, f4.trans hUt, f1.trans hUb⟩
      cases hq : currentPriceQuery st l.id with
      | none =>
        simp [ListingService.create_or_update_listing, hm, hbn, had, hnb, hp,
          strTruthy_some_true hmne, ratTruthy_some_true hp0, hfind, gocb_blank_fa,
          hUeq, hqU, hq, hrp, hPeq, bindRes]
      | some cur =>
        have hne : ¬ cur.price = p := by
          intro hc
          exact hcur (by rw [hq]; simp [hc])
        simp [ListingService.create_or_update_listing, hm, hbn, had, hnb, hp,
          strTruthy_some_true hmne, ratTruthy_some_true hp0, hfind, gocb_blank_fa,
          hUeq, hqU, hq, hne, hrp, hPeq, bindRes]
    · obtain ⟨stU, hUeq, hUl, hUb, hUp, hUt, hUnp, hUne, hUwc⟩ :=
        updateListingFull_fa (some (st.writeCount + 2)) st
          (by simp only [ne_eq, Option.some.injEq]; omega) l.id none data now
      have hqU : currentPriceQuery stU l.id = currentPriceQuery st l.id :=
        currentPriceQuery_congr hUp l.id
      have hprobe : findPriceRowByKey stU l.id (Option.getD none today) p = none := by
        rw [findPriceRowByKey_congr hUp]
        simp only [Option.getD_none]
        exact hded
      have hrp := record_price_miss_eq (some (st.writeCount + 2)) stU l.id p none
        "Price Change" today hprobe
      simp only [Option.getD_none] at hrp
      obtain ⟨stP, hPeq, hPp, hPb, hPl, hPt, hPne, hPwc⟩ :=
        insertPriceRow_fa (some (st.writeCount + 2)) stU
          (by rw [hUwc]; simp only [ne_eq, Option.some.injEq]; omega) l.id p
          today (ListingService.classifyEventType stU l.id p "Price Change")
      obtain ⟨stF, hEeq, f1, f2, f3, f4⟩ :=
        insertTrackingEvent_fail_spec (some (st.writeCount + 2)) stP
          (by rw [hPwc, hUwc]) l.id "Updated"
          ("Updated from " ++ data.source_platform.getD "None")
      refine ⟨stF, ?_, (f2.trans hPl).trans hUl,
        ⟨_, (f3.trans hPp).trans (by rw [hUp]), rfl, rfl⟩,
        (f4.trans hPt).trans hUt, (f1.trans hPb).trans hUb⟩
      cases hq : currentPriceQuery st l.id with
      | none =>
        simp [ListingService.create_or_update_listing, hm, hbn, had, hnb, hp,
          strTruthy_some_true hmne, ratTruthy_some_true hp0, hfind, gocb_blank_fa,
          hUeq, hqU, hq, hrp, hPeq, hEeq, bindRes]
      | some cur =>
        have hne : ¬ cur.price = p := by
          intro hc
          exact hcur (by rw [hq]; simp [hc])
        simp [ListingService.create_or_update_listing, hm, hbn, had, hnb, hp,
          strTruthy_some_true hmne, ratTruthy_some_true hp0, hfind, gocb_blank_fa,
          hUeq, hqU, hq, hne, hrp, hPeq, hEeq, bindRes]

/-- Witness for C1's amended theorem: the create path from the empty store
at MLS "M1", building "T", price 500000 (failing each of its four write
statements in turn), and the update path from a store holding listing 1
"M1" with one prior entry (price 100, date 1), upserted at price 200
(failing each of its three write statements in turn). -/
theorem upsert_per_statement_commit_witness :
    ((∃ stF,
        ListingService.create_or_update_listing (some 0) emptyDb
          { mls_number := some "M1", building_name := some "T", price := some 500000 } 5 5 =
          (Except.error "database error", stF) ∧
        stF.buildings = ([] : List Building) ∧ stF.listings = ([] : List ListingRow) ∧
        stF.priceHistory = ([] : List PriceRow) ∧
        stF.trackingEvents = ([] : List EventRow)) ∧
     (∃ stF,
        ListingService.create_or_update_listing (some 1) emptyDb
          { mls_number := some "M1", building_name := some "T", price := some 500000 } 5 5 =
          (Except.error "database error", stF) ∧
        (∃ b, stF.buildings = [] ++ [b]) ∧ stF.listings = ([] : List ListingRow) ∧
        stF.priceHistory = ([] : List PriceRow) ∧
        stF.trackingEvents = ([] : List EventRow)) ∧
     (∃ stF,
        ListingService.create_or_update_listing (some 2) emptyDb
          { mls_number := some "M1", building_name := some "T", price := some 500000 } 5 5 =
          (Except.error "database error", stF) ∧
        (∃ b, stF.buildings = [] ++ [b]) ∧
        (∃ lr, stF.listings = [] ++ [lr] ∧ lr.mlsNumber = "M1") ∧
        stF.priceHistory = ([] : List PriceRow) ∧
        stF.trackingEvents = ([] : List EventRow)) ∧
     (∃ stF,
        ListingService.create_or_update_listing (some 3) emptyDb
          { mls_number := some "M1", building_name := some "T", price := some 500000 } 5 5 =
          (Except.error "database error", stF) ∧
        (∃ b, stF.buildings = [] ++ [b]) ∧
        (∃ lr, stF.listings = [] ++ [lr] ∧ lr.mlsNumber = "M1") ∧
        (∃ r, stF.priceHistory = [] ++ [r] ∧ r.price = (500000 : Rat) ∧
          r.listingId = 1 ∧ r.eventType = "Initial") ∧
        stF.trackingEvents = ([] : List EventRow))) ∧
    ((∃ stF,
        ListingService.create_or_update_listing (some 0)
          (fixtureDb [] [sampleListing 1 "M1"]
            [{ id := 2, listingId := 1, price := 100, recordedDate := 1
               eventType := "Initial" }])
          { mls_number := some "M1", price := some 200 } 3 5 =
          (Except.error "database error", stF) ∧
        stF.listings = [sampleListing 1 "M1"] ∧
        stF.priceHistory =
          [{ id := 2, listingId := 1, price := 100, recordedDate := 1
             eventType := "Initial" }] ∧
        stF.trackingEvents = ([] : List EventRow) ∧
        stF.buildings = ([] : List Building)) ∧
     (∃ stF,
        ListingService.create_or_update_listing (some 1)
          (fixtureDb [] [sampleListing 1 "M1"]
            [{ id := 2, listingId := 1, price := 100, recordedDate := 1
               eventType := "Initial" }])
          { mls_number := some "M1", price := some 200 } 3 5 =
          (Except.error "database error", stF) ∧
        stF.listings = [sampleListing 1 "M1"].map (fun x =>
          if x.id = 1 then
            overwriteListingRow x none { mls_number := some "M1", price := some 200 } 3
          else x) ∧
        stF.priceHistory =
          [{ id := 2, listingId := 1, price := 100, recordedDate := 1
             eventType := "Initial" }] ∧
        stF.trackingEvents = ([] : List EventRow) ∧
        stF.buildings = ([] : List Building)) ∧
     (∃ stF,
        ListingService.create_or_update_listing (some 2)
          (fixtureDb [] [sampleListing 1 "M1"]
            [{ id := 2, listingId := 1, price := 100, recordedDate := 1
               eventType := "Initial" }])
          { mls_number := some "M1", price := some 200 } 3 5 =
          (Except.error "database error", stF) ∧
        stF.listings = [sampleListing 1 "M1"].map (fun x =>
          if x.id = 1 then
            overwriteListingRow x none { mls_number := some "M1", price := some 200 } 3
          else x) ∧
        (∃ r, stF.priceHistory =
          [{ id := 2, listingId := 1, price := 100, recordedDate := 1
             eventType := "Initial" }] ++ [r] ∧ r.price = (200 : Rat) ∧
          r.listingId = 1) ∧
        stF.trackingEvents = ([] : List EventRow) ∧
        stF.buildings = ([] : List Building))) :=
  ⟨upsert_per_statement_commit.1 emptyDb
      { mls_number := some "M1", building_name := some "T", price := some 500000 }
      "M1" "T" 500000 none 5 5 rfl rfl rfl rfl rfl rfl (by decide) (by decide)
      (by decide) rfl rfl rfl,
   upsert_per_statement_commit.2
      (fixtureDb [] [sampleListing 1 "M1"]
        [{ id := 2, listingId := 1, price := 100, recordedDate := 1
           eventType := "Initial" }])
      { mls_number := some "M1", price := some 200 } "M1" 200 (sampleListing 1 "M1")
      3 5 rfl rfl rfl rfl rfl (by decide) (by decide) rfl (by decide) rfl⟩

/-! ## C5 and C10: CSV import -/

theorem hist_gocb_ok (st : Db) (name : String) (address neighborhood : Option String) :
    ∃ (bid : Nat) (stB : Db),
      HistoricalSaleService.get_or_create_building none st name address neighborhood =
        (Except.ok bid, stB) ∧
      stB.neighborhoods = st.neighborhoods ∧ stB.listings = st.listings ∧
      stB.priceHistory = st.priceHistory ∧ stB.trackingEvents = st.trackingEvents ∧
      stB.sales = st.sales ∧ stB.nextListingId = st.nextListingId ∧
      stB.nextPriceId = st.nextPriceId ∧ stB.nextEventId = st.nextEventId ∧
      stB.nextSaleId = st.nextSaleId := by
  unfold HistoricalSaleService.get_or_create_building
  cases hn : findBuildingByName st name with
  | some b => exact ⟨b.id, st, rfl, rfl, rfl, rfl, rfl, rfl, rfl, rfl, rfl, rfl⟩
  | none =>
    cases ha : (if strTruthy address = true then findBuildingByAddress st (address.getD "") else none) with
    | some b => exact ⟨b.id, st, rfl, rfl, rfl, rfl, rfl, rfl, rfl, rfl, rfl, rfl⟩
    | none =>
      exact ⟨st.nextBuildingId, _, rfl, rfl, rfl, rfl, rfl, rfl, rfl, rfl, rfl, rfl⟩

theorem create_sale_spec (st : Db) (d : SaleData) :
    ∃ sid st2,
      HistoricalSaleService.create_sale none st d = (Except.ok sid, st2) ∧
      st2.sales.map saleRowFields = st.sales.map saleRowFields ++ [saleCore d] ∧
      st2.sales.length = st.sales.length + 1 ∧
      st2.listings = st.listings ∧ st2.priceHistory = st.priceHistory ∧
      st2.trackingEvents = st.trackingEvents ∧ st2.neighborhoods = st.neighborhoods := by
  obtain ⟨bid, stB, hB, hBn, hBl, hBp, hBt, hBs, hBnl, hBnp, hBne, hBns⟩ :=
    hist_gocb_ok st d.building_name d.address d.neighborhood
  refine ⟨stB.nextSaleId,
    { stB with
       sales := stB.sales ++
         [{ id := stB.nextSaleId, buildingId := bid, unitNumber := d.unit_number
            salePrice := d.sale_price, saleDate := d.sale_date
            bedrooms := d.bedrooms, bathrooms := d.bathrooms
            squareFeet := d.square_feet, propertyType := d.property_type
            daysOnMarket := d.days_on_market, notes := d.notes
            dataSource := d.data_source }]
       nextSaleId := stB.nextSaleId + 1
       writeCount := stB.writeCount + 1 }, ?_, ?_, ?_, ?_, ?_, ?_, ?_⟩
  · unfold HistoricalSaleService.create_sale
    rw [hB, bindRes_ok, insertSale_none, bindRes_ok]
  · show (stB.sales ++ [_]).map saleRowFields = _
    rw [List.map_append, hBs]
    rfl
  · show (stB.sales ++ [_]).length = _
    rw [List.length_append, hBs]
    rfl
  · exact hBl
  · exact hBp
  · exact hBt
  · exact hBn

theorem importLoop_spec (decimalParse : String → Option Rat)
    (strptimeIso : String → String → Option String)
    (floatParse : String → Option Rat) (header : List String) :
    ∀ (rows : List (List String)) (n : Nat) (results : ImportResults) (st : Db),
      (importLoop decimalParse strptimeIso floatParse none header n rows results st).1.success =
        results.success ∧
      (importLoop decimalParse strptimeIso floatParse none header n rows results st).1.total_rows =
        results.total_rows + rows.length ∧
      (importLoop decimalParse strptimeIso floatParse none header n rows results st).1.imported =
        results.imported + (okRows decimalParse strptimeIso floatParse header rows).length ∧
      (importLoop decimalParse strptimeIso floatParse none header n rows results st).1.skipped =
        results.skipped +
          (rowErrors decimalParse strptimeIso floatParse header n rows).length ∧
      (importLoop decimalParse strptimeIso floatParse none header n rows results st).1.errors =
        results.errors ++ rowErrors decimalParse strptimeIso floatParse header n rows ∧
      (importLoop decimalParse strptimeIso floatParse none header n rows results st).2.sales.map saleRowFields =
        st.sales.map saleRowFields ++
          (okRows decimalParse strptimeIso floatParse header rows).map saleCore ∧
      (importLoop decimalParse strptimeIso floatParse none header n rows results st).2.listings =
        st.listings ∧
      (importLoop decimalParse strptimeIso floatParse none header n rows results st).2.priceHistory =
        st.priceHistory ∧
      (importLoop decimalParse strptimeIso floatParse none header n rows results st).2.trackingEvents =
        st.trackingEvents := by
  intro rows
  induction rows with
  | nil =>
    intro n results st
    simp [importLoop, okRows, rowErrors]
  | cons row rest ih =>
    intro n results st
    cases houtcome : rowOutcome decimalParse strptimeIso floatParse header row with
    | error m =>
      have hrow : importRow decimalParse strptimeIso floatParse none header n row results st =
          ({ results with total_rows := results.total_rows + 1
                          errors := results.errors ++ [rowErr n m]
                          skipped := results.skipped + 1 }, st) := by
        unfold importRow
        simp only [houtcome]
      have hloop : importLoop decimalParse strptimeIso floatParse none header n
          (row :: rest) results st =
          importLoop decimalParse strptimeIso floatParse none header (n + 1) rest
            { results with total_rows := results.total_rows + 1
                           errors := results.errors ++ [rowErr n m]
                           skipped := results.skipped + 1 } st := by
        simp only [importLoop]
        rw [hrow]
      obtain ⟨h1, h2, h3, h4, h5, h6, h7, h8, h9⟩ := ih (n + 1)
        { results with total_rows := results.total_rows + 1
                       errors := results.errors ++ [rowErr n m]
                       skipped := results.skipped + 1 } st
      rw [hloop]
      refine ⟨h1, ?_, ?_, ?_, ?_, ?_, h7, h8, h9⟩
      · rw [h2]
        simp only [List.length_cons]
        omega
      · rw [h3]
        simp [okRows, List.filterMap_cons, houtcome, Except.toOption]
      · rw [h4]
        simp only [rowErrors, houtcome, List.singleton_append, List.length_cons,
          List.length_append]
        omega
      · rw [h5]
        simp [rowErrors, houtcome]
      · rw [h6]
        simp [okRows, List.filterMap_cons, houtcome, Except.toOption]
    | ok d =>
      obtain ⟨sid, st2, hcs, hmap, hlen, hls, hph, hte, hnb⟩ := create_sale_spec st d
      have hrow : importRow decimalParse strptimeIso floatParse none header n row results st =
          ({ results with total_rows := results.total_rows + 1
                          imported := results.imported + 1 }, st2) := by
        unfold importRow
        simp only [houtcome, hcs]
      have hloop : importLoop decimalParse strptimeIso floatParse none header n
          (row :: rest) results st =
          importLoop decimalParse strptimeIso floatParse none header (n + 1) rest
            { results with total_rows := results.total_rows + 1
                           imported := results.imported + 1 } st2 := by
        simp only [importLoop]
        rw [hrow]
      obtain ⟨h1, h2, h3, h4, h5, h6, h7, h8, h9⟩ := ih (n + 1)
        { results with total_rows := results.total_rows + 1
                       imported := results.imported + 1 } st2
      rw [hloop]
      refine ⟨h1, ?_, ?_, ?_, ?_, ?_, ?_, ?_, ?_⟩
      · rw [h2]
        simp only [List.length_cons]
        omega
      · rw [h3]
        simp [okRows, List.filterMap_cons, houtcome, Except.toOption]
        omega
      · rw [h4]
        simp [rowErrors, houtcome]
      · rw [h5]
        simp [rowErrors, houtcome]
      · rw [h6, hmap]
        simp [okRows, List.filterMap_cons, houtcome, Except.toOption]
      · rw [h7, hls]
      · rw [h8, hph]
      · rw [h9, hte]

theorem importLoop_counts (decimalParse : String → Option Rat)
    (strptimeIso : String → String → Option String)
    (floatParse : String → Option Rat) (failAt : Option Nat) (header : List String) :
    ∀ (rows : List (List String)) (n : Nat) (results : ImportResults) (st : Db),
      (importLoop decimalParse strptimeIso floatParse failAt header n rows results st).1.success =
        results.success ∧
      (importLoop decimalParse strptimeIso floatParse failAt header n rows results st).1.total_rows =
        results.total_rows + rows.length ∧
      (importLoop decimalParse strptimeIso floatParse failAt header n rows results st).1.imported +
        (importLoop decimalParse strptimeIso floatParse failAt header n rows results st).1.skipped =
        results.imported + results.skipped + rows.length ∧
      (importLoop decimalParse strptimeIso floatParse failAt header n rows results st).1.errors.length +
        results.skipped =
        (importLoop decimalParse strptimeIso floatParse failAt header n rows results st).1.skipped +
        results.errors.length := by
  intro rows
  induction rows with
  | nil =>
    intro n results st
    exact ⟨rfl, rfl, rfl, Nat.add_comm _ _⟩
  | cons row rest ih =>
    intro n results st
    cases houtcome : rowOutcome decimalParse strptimeIso floatParse header row with
    | error m =>
      have hloop : importLoop decimalParse strptimeIso floatParse failAt header n
          (row :: rest) results st =
          importLoop decimalParse strptimeIso floatParse failAt header (n + 1) rest
            { results with total_rows := results.total_rows + 1
                           errors := results.errors ++ [rowErr n m]
                           skipped := results.skipped + 1 } st := by
        simp only [importLoop]
        have hrow : importRow decimalParse strptimeIso floatParse failAt header n row results st =
            ({ results with total_rows := results.total_rows + 1
                            errors := results.errors ++ [rowErr n m]
                            skipped := results.skipped + 1 }, st) := by
          unfold importRow
          simp only [houtcome]
        rw [hrow]
      obtain ⟨h1, h2, h3, h4⟩ := ih (n + 1)
        { results with total_rows := results.total_rows + 1
                       errors := results.errors ++ [rowErr n m]
                       skipped := results.skipped + 1 } st
      rw [hloop]
      simp only [List.length_cons, List.length_append, List.length_nil] at h1 h2 h3 h4 ⊢
      exact ⟨h1, by omega, by omega, by omega⟩
    | ok d =>
      rcases hcs : HistoricalSaleService.create_sale failAt st d with ⟨r, stx⟩
      cases r with
      | error e =>
        have hloop : importLoop decimalParse strptimeIso floatParse failAt header n
            (row :: rest) results st =
            importLoop decimalParse strptimeIso floatParse failAt header (n + 1) rest
              { results with total_rows := results.total_rows + 1
                             errors := results.errors ++ [rowErr n e]
                             skipped := results.skipped + 1 } stx := by
          simp only [importLoop]
          have hrow : importRow decimalParse strptimeIso floatParse failAt header n row results st =
              ({ results with total_rows := results.total_rows + 1
                              errors := results.errors ++ [rowErr n e]
                              skipped := results.skipped + 1 }, stx) := by
            unfold importRow
            simp only [houtcome, hcs]
          rw [hrow]
        obtain ⟨h1, h2, h3, h4⟩ := ih (n + 1)
          { results with total_rows := results.total_rows + 1
                         errors := results.errors ++ [rowErr n e]
                         skipped := results.skipped + 1 } stx
        rw [hloop]
        simp only [List.length_cons, List.length_append, List.length_nil] at h1 h2 h3 h4 ⊢
        exact ⟨h1, by omega, by omega, by omega⟩
      | ok sid =>
        have hloop : importLoop decimalParse strptimeIso floatParse failAt header n
            (row :: rest) results st =
            importLoop decimalParse strptimeIso floatParse failAt header (n + 1) rest
              { results with total_rows := results.total_rows + 1
                             imported := results.imported + 1 } stx := by
          simp only [importLoop]
          have hrow : importRow decimalParse strptimeIso floatParse failAt header n row results st =
              ({ results with total_rows := results.total_rows + 1
                              imported := results.imported + 1 }, stx) := by
            unfold importRow
            simp only [houtcome, hcs]
          rw [hrow]
        obtain ⟨h1, h2, h3, h4⟩ := ih (n + 1)
          { results with total_rows := results.total_rows + 1
                         imported := results.imported + 1 } stx
        rw [hloop]
        simp only [List.length_cons, List.length_append, List.length_nil] at h1 h2 h3 h4 ⊢
        exact ⟨h1, by omega, by omega, by omega⟩

theorem import_csv_valid (decimalParse : String → Option Rat)
    (strptimeIso : String → String → Option String)
    (floatParse : String → Option Rat) (failAt : Option Nat) (st : Db)
    (header : List String) (dataRows : List (List String))
    (h : (requiredColumns.filter (fun c => !header.contains c)).isEmpty = true) :
    HistoricalSaleService.import_csv decimalParse strptimeIso floatParse failAt st
      (header :: dataRows) =
      importLoop decimalParse strptimeIso floatParse failAt header 2 dataRows
        { success := true, total_rows := 0, imported := 0, skipped := 0
          errors := [] } st := by
  simp only [HistoricalSaleService.import_csv, h, eq_self_iff_true, if_true]

theorem import_csv_invalid (decimalParse : String → Option Rat)
    (strptimeIso : String → String → Option String)
    (floatParse : String → Option Rat) (failAt : Option Nat) (st : Db)
    (header : List String) (dataRows : List (List String))
    (h : (requiredColumns.filter (fun c => !header.contains c)).isEmpty = false) :
    HistoricalSaleService.import_csv decimalParse strptimeIso floatParse failAt st
      (header :: dataRows) =
      ({ success := false, total_rows := 0, imported := 0, skipped := 0
         errors := ["Missing required columns: " ++ String.intercalate ", "
           (requiredColumns.filter (fun c => !header.contains c))] }, st) := by
  simp only [HistoricalSaleService.import_csv, h, Bool.false_eq_true, if_false]

theorem import_csv_empty (decimalParse : String → Option Rat)
    (strptimeIso : String → String → Option String)
    (floatParse : String → Option Rat) (failAt : Option Nat) (st : Db) :
    HistoricalSaleService.import_csv decimalParse strptimeIso floatParse failAt st [] =
      ({ success := false, total_rows := 0, imported := 0, skipped := 0
         errors := ["CSV has no headers"] }, st) := rfl

/-- C5: the whole batch fails — with no rows processed — exactly when the
input has no header record or the header lacks one of `building_name`,
`sale_price`, `sale_date`; otherwise every row is processed independently:
with a store that never fails, the counters, the row-numbered error list
("Row 2" is the first data row) and the persisted sales are exactly the
per-row fold of the independent `rowOutcome` of each row; and under
arbitrary store failures each row still ends as imported or skipped with
one error message per skipped row — the batch always continues. -/
theorem import_csv_row_isolation (decimalParse : String → Option Rat)
    (strptimeIso : String → String → Option String)
    (floatParse : String → Option Rat) (failAt : Option Nat) (st : Db) :
    HistoricalSaleService.import_csv decimalParse strptimeIso floatParse failAt st [] =
      ({ success := false, total_rows := 0, imported := 0, skipped := 0
         errors := ["CSV has no headers"] }, st) ∧
    (∀ header dataRows,
      ((HistoricalSaleService.import_csv decimalParse strptimeIso floatParse failAt st
          (header :: dataRows)).1.success = false ↔
        requiredColumns.filter (fun c => !header.contains c) ≠ []) ∧
      (requiredColumns.filter (fun c => !header.contains c) ≠ [] →
        HistoricalSaleService.import_csv decimalParse strptimeIso floatParse failAt st
          (header :: dataRows) =
          ({ success := false, total_rows := 0, imported := 0, skipped := 0
             errors := ["Missing required columns: " ++ String.intercalate ", "
               (requiredColumns.filter (fun c => !header.contains c))] }, st)) ∧
      (requiredColumns.filter (fun c => !header.contains c) = [] →
        (HistoricalSaleService.import_csv decimalParse strptimeIso floatParse failAt st
          (header :: dataRows)).1.success = true ∧
        (HistoricalSaleService.import_csv decimalParse strptimeIso floatParse failAt st
          (header :: dataRows)).1.total_rows = dataRows.length ∧
        (HistoricalSaleService.import_csv decimalParse strptimeIso floatParse failAt st
          (header :: dataRows)).1.imported +
          (HistoricalSaleService.import_csv decimalParse strptimeIso floatParse failAt st
            (header :: dataRows)).1.skipped = dataRows.length ∧
        (HistoricalSaleService.import_csv decimalParse strptimeIso floatParse failAt st
          (header :: dataRows)).1.errors.length =
          (HistoricalSaleService.import_csv decimalParse strptimeIso floatParse failAt st
            (header :: dataRows)).1.skipped)) ∧
    (∀ header dataRows,
      requiredColumns.filter (fun c => !header.contains c) = [] →
      (HistoricalSaleService.import_csv decimalParse strptimeIso floatParse none st
        (header :: dataRows)).1.success = true ∧
      (HistoricalSaleService.import_csv decimalParse strptimeIso floatParse none st
        (header :: dataRows)).1.total_rows = dataRows.length ∧
      (HistoricalSaleService.import_csv decimalParse strptimeIso floatParse none st
        (header :: dataRows)).1.imported =
        (okRows decimalParse strptimeIso floatParse header dataRows).length ∧
      (HistoricalSaleService.import_csv decimalParse strptimeIso floatParse none st
        (header :: dataRows)).1.skipped =
        (rowErrors decimalParse strptimeIso floatParse header 2 dataRows).length ∧
      (HistoricalSaleService.import_csv decimalParse strptimeIso floatParse none st
        (header :: dataRows)).1.errors =
        rowErrors decimalParse strptimeIso floatParse header 2 dataRows ∧
      (HistoricalSaleService.import_csv decimalParse strptimeIso floatParse none st
        (header :: dataRows)).2.sales.map saleRowFields =
        st.sales.map saleRowFields ++
          (okRows decimalParse strptimeIso floatParse header dataRows).map saleCore) := by
  refine ⟨rfl, ?_, ?_⟩
  · intro header dataRows
    cases hval : (requiredColumns.filter (fun c => !header.contains c)).isEmpty with
    | true =>
      have hnil : requiredColumns.filter (fun c => !header.contains c) = [] := by
        cases hfil : requiredColumns.filter (fun c => !header.contains c) with
        | nil => rfl
        | cons a l =>
          rw [hfil] at hval
          simp [List.isEmpty] at hval
      rw [import_csv_valid decimalParse strptimeIso floatParse failAt st header dataRows hval]
      obtain ⟨c1, c2, c3, c4⟩ :=
        importLoop_counts decimalParse strptimeIso floatParse failAt header dataRows 2
          { success := true, total_rows := 0, imported := 0, skipped := 0, errors := [] } st
      simp only [List.length_nil] at c1 c2 c3 c4
      refine ⟨?_, fun hne => absurd hnil hne, fun _ => ⟨c1, ?_, ?_, ?_⟩⟩
      · constructor
        · intro hfalse
          rw [c1] at hfalse
          cases hfalse
        · intro hne
          exact absurd hnil hne
      · omega
      · omega
      · omega
    | false =>
      have hne : requiredColumns.filter (fun c => !header.contains c) ≠ [] := by
        intro hc
        rw [hc] at hval
        cases hval
      rw [import_csv_invalid decimalParse strptimeIso floatParse failAt st header dataRows hval]
      exact ⟨⟨fun _ => hne, fun _ => rfl⟩, fun _ => rfl, fun hnil => absurd hnil hne⟩
  · intro header dataRows hnil
    have hval : (requiredColumns.filter (fun c => !header.contains c)).isEmpty = true := by
      rw [hnil]
      rfl
    rw [import_csv_valid decimalParse strptimeIso floatParse none st header dataRows hval]
    obtain ⟨h1, h2, h3, h4, h5, h6, h7, h8, h9⟩ :=
      importLoop_spec decimalParse strptimeIso floatParse header dataRows 2
        { success := true, total_rows := 0, imported := 0, skipped := 0, errors := [] } st
    simp only [List.length_nil, List.nil_append] at h1 h2 h3 h4 h5
    refine ⟨h1, ?_, ?_, ?_, h5, h6⟩
    · omega
    · omega
    · omega

/-- C10: historical-sale creation never deduplicates — `create_sale`
unconditionally inserts a fresh `historical_sale` row for every input and
every store state, identical pre-existing rows included; consequently
running the same import twice imports the same number of rows again, and
the `historical_sale` table grows by twice that count — `importBatch` is
not idempotent. -/
theorem create_sale_never_dedupes (decimalParse : String → Option Rat)
    (strptimeIso : String → String → Option String)
    (floatParse : String → Option Rat) :
    (∀ (st : Db) (d : SaleData),
      ∃ sid st2,
        HistoricalSaleService.create_sale none st d = (Except.ok sid, st2) ∧
        st2.sales.length = st.sales.length + 1) ∧
    (∀ (st : Db) (csvRows : List (List String)),
      (HistoricalSaleService.import_csv decimalParse strptimeIso floatParse none
          ((HistoricalSaleService.import_csv decimalParse strptimeIso floatParse none
            st csvRows).2) csvRows).1.imported =
        (HistoricalSaleService.import_csv decimalParse strptimeIso floatParse none
          st csvRows).1.imported ∧
      (HistoricalSaleService.import_csv decimalParse strptimeIso floatParse none
          ((HistoricalSaleService.import_csv decimalParse strptimeIso floatParse none
            st csvRows).2) csvRows).2.sales.length =
        st.sales.length +
          2 * (HistoricalSaleService.import_csv decimalParse strptimeIso floatParse none
            st csvRows).1.imported) := by
  constructor
  · intro st d
    obtain ⟨sid, st2, hcs, _, hlen, _, _, _, _⟩ := create_sale_spec st d
    exact ⟨sid, st2, hcs, hlen⟩
  · intro st csvRows
    cases csvRows with
    | nil =>
      rw [import_csv_empty]
      rw [import_csv_empty]
      exact ⟨rfl, rfl⟩
    | cons header dataRows =>
      cases hval : (requiredColumns.filter (fun c => !header.contains c)).isEmpty with
      | false =>
        rw [import_csv_invalid decimalParse strptimeIso floatParse none st header dataRows hval]
        rw [import_csv_invalid decimalParse strptimeIso floatParse none st header dataRows hval]
        exact ⟨rfl, rfl⟩
      | true =>
        rw [import_csv_valid decimalParse strptimeIso floatParse none st header dataRows hval]
        obtain ⟨h1, h2, h3, h4, h5, h6, h7, h8, h9⟩ :=
          importLoop_spec decimalParse strptimeIso floatParse header dataRows 2
            { success := true, total_rows := 0, imported := 0, skipped := 0, errors := [] } st
        rw [import_csv_valid decimalParse strptimeIso floatParse none
          (importLoop decimalParse strptimeIso floatParse none header 2 dataRows
            { success := true, total_rows := 0, imported := 0, skipped := 0, errors := [] } st).2
          header dataRows hval]
        obtain ⟨g1, g2, g3, g4, g5, g6, g7, g8, g9⟩ :=
          importLoop_spec decimalParse strptimeIso floatParse header dataRows 2
            { success := true, total_rows := 0, imported := 0, skipped := 0, errors := [] }
            (importLoop decimalParse strptimeIso floatParse none header 2 dataRows
              { success := true, total_rows := 0, imported := 0, skipped := 0, errors := [] } st).2
        have hlen1 : (importLoop decimalParse strptimeIso floatParse none header 2 dataRows
            { success := true, total_rows := 0, imported := 0, skipped := 0, errors := [] }
            st).2.sales.length =
            st.sales.length + (okRows decimalParse strptimeIso floatParse header dataRows).length := by
          have := congrArg List.length h6
          simpa using this
        have hlen2 : (importLoop decimalParse strptimeIso floatParse none header 2 dataRows
            { success := true, total_rows := 0, imported := 0, skipped := 0, errors := [] }
            (importLoop decimalParse strptimeIso floatParse none header 2 dataRows
              { success := true, total_rows := 0, imported := 0, skipped := 0, errors := [] }
              st).2).2.sales.length =
            (importLoop decimalParse strptimeIso floatParse none header 2 dataRows
              { success := true, total_rows := 0, imported := 0, skipped := 0, errors := [] }
              st).2.sales.length +
              (okRows decimalParse strptimeIso floatParse header dataRows).length := by
          have := congrArg List.length g6
          simpa using this
        simp only [List.length_nil] at g3 h3
        constructor
        · rw [g3, h3]
        · rw [hlen2, hlen1, h3]
          omega

/-- Witness for C5 at a concrete batch: valid header, one well-formed row
and one row with an unparsable price, over concrete stand-ins for the
Decimal and strptime collaborators. -/
theorem import_csv_row_isolation_witness :
    requiredColumns.filter
      (fun c => !(["building_name", "sale_price", "sale_date"] : List String).contains c) = [] ∧
    ((HistoricalSaleService.import_csv
        (fun s => if s = "500000" then some (500000 : Rat) else none)
        (fun s fmt => if s = "2020-01-01" ∧ fmt = "%Y-%m-%d" then some "2020-01-01" else none)
        (fun _ => none) none emptyDb
        (["building_name", "sale_price", "sale_date"] ::
          [["Tower", "500000", "2020-01-01"], ["Tower", "abc", "2020-01-01"]])).1.success = true ∧
      (HistoricalSaleService.import_csv
        (fun s => if s = "500000" then some (500000 : Rat) else none)
        (fun s fmt => if s = "2020-01-01" ∧ fmt = "%Y-%m-%d" then some "2020-01-01" else none)
        (fun _ => none) none emptyDb
        (["building_name", "sale_price", "sale_date"] ::
          [["Tower", "500000", "2020-01-01"], ["Tower", "abc", "2020-01-01"]])).1.total_rows = 2 ∧
      (HistoricalSaleService.import_csv
        (fun s => if s = "500000" then some (500000 : Rat) else none)
        (fun s fmt => if s = "2020-01-01" ∧ fmt = "%Y-%m-%d" then some "2020-01-01" else none)
        (fun _ => none) none emptyDb
        (["building_name", "sale_price", "sale_date"] ::
          [["Tower", "500000", "2020-01-01"], ["Tower", "abc", "2020-01-01"]])).1.imported =
        (okRows (fun s => if s = "500000" then some (500000 : Rat) else none)
          (fun s fmt => if s = "2020-01-01" ∧ fmt = "%Y-%m-%d" then some "2020-01-01" else none)
          (fun _ => none) ["building_name", "sale_price", "sale_date"]
          [["Tower", "500000", "2020-01-01"], ["Tower", "abc", "2020-01-01"]]).length ∧
      (HistoricalSaleService.import_csv
        (fun s => if s = "500000" then some (500000 : Rat) else none)
        (fun s fmt => if s = "2020-01-01" ∧ fmt = "%Y-%m-%d" then some "2020-01-01" else none)
        (fun _ => none) none emptyDb
        (["building_name", "sale_price", "sale_date"] ::
          [["Tower", "500000", "2020-01-01"], ["Tower", "abc", "2020-01-01"]])).1.skipped =
        (rowErrors (fun s => if s = "500000" then some (500000 : Rat) else none)
          (fun s fmt => if s = "2020-01-01" ∧ fmt = "%Y-%m-%d" then some "2020-01-01" else none)
          (fun _ => none) ["building_name", "sale_price", "sale_date"] 2
          [["Tower", "500000", "2020-01-01"], ["Tower", "abc", "2020-01-01"]]).length ∧
      (HistoricalSaleService.import_csv
        (fun s => if s = "500000" then some (500000 : Rat) else none)
        (fun s fmt => if s = "2020-01-01" ∧ fmt = "%Y-%m-%d" then some "2020-01-01" else none)
        (fun _ => none) none emptyDb
        (["building_name", "sale_price", "sale_date"] ::
          [["Tower", "500000", "2020-01-01"], ["Tower", "abc", "2020-01-01"]])).1.errors =
        rowErrors (fun s => if s = "500000" then some (500000 : Rat) else none)
          (fun s fmt => if s = "2020-01-01" ∧ fmt = "%Y-%m-%d" then some "2020-01-01" else none)
          (fun _ => none) ["building_name", "sale_price", "sale_date"] 2
          [["Tower", "500000", "2020-01-01"], ["Tower", "abc", "2020-01-01"]] ∧
      (HistoricalSaleService.import_csv
        (fun s => if s = "500000" then some (500000 : Rat) else none)
        (fun s fmt => if s = "2020-01-01" ∧ fmt = "%Y-%m-%d" then some "2020-01-01" else none)
        (fun _ => none) none emptyDb
        (["building_name", "sale_price", "sale_date"] ::
          [["Tower", "500000", "2020-01-01"], ["Tower", "abc", "2020-01-01"]])).2.sales.map saleRowFields =
        emptyDb.sales.map saleRowFields ++
          (okRows (fun s => if s = "500000" then some (500000 : Rat) else none)
            (fun s fmt => if s = "2020-01-01" ∧ fmt = "%Y-%m-%d" then some "2020-01-01" else none)
            (fun _ => none) ["building_name", "sale_price", "sale_date"]
            [["Tower", "500000", "2020-01-01"], ["Tower", "abc", "2020-01-01"]]).map saleCore) :=
  ⟨rfl,
   (import_csv_row_isolation
      (fun s => if s = "500000" then some (500000 : Rat) else none)
      (fun s fmt => if s = "2020-01-01" ∧ fmt = "%Y-%m-%d" then some "2020-01-01" else none)
      (fun _ => none) none emptyDb).2.2
     ["building_name", "sale_price", "sale_date"]
     [["Tower", "500000", "2020-01-01"], ["Tower", "abc", "2020-01-01"]] rfl⟩

end RealEstate
